import Mathlib

/-!
Verification of the ChatFlow server core (room join/leave, message pipeline,
moderation state) against its natural-language specification.

The JavaScript sources are embedded shallowly: each SQLite table becomes a
list of rows inside a `DB` structure, each service function becomes a pure
Lean function threading the `DB` (and, where the source touches the
filesystem, a `World` that also carries the set of stored physical files).
Timestamps (`Date.now()`) are naturals counting milliseconds.  Fallible
service functions return `Except`; JavaScript `null`/`undefined` string
fields become `Option String`, and JavaScript truthiness of a string is
"present and non-empty".
-/

deriving instance DecidableEq for Except

namespace ChatFlow

set_option maxRecDepth 10000

/-- Leading JavaScript whitespace removed from a character list. -/
def dropLeadingWs : List Char → List Char
  | [] => []
  | c :: cs => if c.isWhitespace then dropLeadingWs cs else c :: cs

/-- Model of JavaScript `String.prototype.trim`: strip whitespace from
both ends. -/
def jsTrim (s : String) : String :=
  ⟨(dropLeadingWs (dropLeadingWs s.data).reverse).reverse⟩

/-- A row of the `chatrooms` table (src/app.js `createTables`). -/
structure ChatroomRow where
  roomId : String
  name : String
  passwordHash : Option String
  creatorUid : String
  isActive : Bool
  createdAt : Nat
deriving Repr, DecidableEq

/-- A row of the `anonymous_users` table. -/
structure AnonUserRow where
  uid : String
  chatroomId : String
  nickname : String
  avatarUrl : Option String
  muteUntil : Option Nat
  isActive : Bool
  joinTime : Nat
  lastActive : Nat
deriving Repr, DecidableEq, Inhabited

/-- A row of the `chatroom_admins` table. -/
structure AdminRow where
  chatroomId : String
  userUid : String
  grantedBy : String
  grantedAt : Nat
deriving Repr, DecidableEq

/-- A row of the `user_mutes` table. -/
structure MuteRow where
  chatroomId : String
  userUid : String
  mutedBy : String
  reason : String
  muteUntil : Nat
  isActive : Bool
  createdAt : Nat
deriving Repr, DecidableEq

/-- A row of the `chatroom_members` table. -/
structure MemberRow where
  chatroomId : String
  userUid : String
  userType : String
  nickname : String
  avatarUrl : Option String
  joinTime : Nat
  lastActive : Nat
  status : String
  isActive : Bool
deriving Repr, DecidableEq

/-- A row of the `messages` table (including the migrated columns). -/
structure MessageRow where
  id : Nat
  messageId : String
  chatroomId : String
  senderUid : String
  senderType : String
  content : String
  messageType : String
  imageUrl : Option String
  replyToMessageId : Option Nat
  bilibiliBv : Option String
  markdownContent : Option String
  fileId : Option String
  fileName : Option String
  fileSize : Option Int
  fileExpiry : Option Int
  isDeleted : Bool
  deletedBy : Option String
  deletedAt : Option Nat
  createdAt : Nat
deriving Repr, DecidableEq, Inhabited

/-- A row of the `files` table (the fields the core consults). -/
structure FileRow where
  fileId : String
  storedName : String
  messageId : Option String
  isExpired : Bool
deriving Repr, DecidableEq

/-- The durable store: one list of rows per SQLite table, plus the
`messages` AUTOINCREMENT counter. -/
structure DB where
  chatrooms : List ChatroomRow
  anonymousUsers : List AnonUserRow
  chatroomAdmins : List AdminRow
  userMutes : List MuteRow
  chatroomMembers : List MemberRow
  messages : List MessageRow
  files : List FileRow
  nextRowId : Nat
deriving Repr, DecidableEq

/-- The durable store together with the physical upload directory
(`uploads/files`), modelled as the list of stored file names. -/
structure World where
  db : DB
  storedFiles : List String
deriving Repr, DecidableEq

/-- Anonymous-user configuration (src config file, `anonymous` block);
the source reads environment overrides with these defaults. -/
structure AnonConfig where
  muteDuration : Nat := 10 * 60 * 1000
  sessionExpiry : Nat := 24 * 60 * 60 * 1000
  uidLength : Nat := 16
deriving Repr, DecidableEq

/-- JavaScript truthiness of a nullable string: present and non-empty. -/
def strTruthy : Option String → Bool
  | none => false
  | some s => !(s == "")

/-- The double-quote character, kept out of character-literal syntax. -/
def quoteChar : Char := Char.ofNat 34

/-- The single-quote character. -/
def apostropheChar : Char := Char.ofNat 39

/-- The slash character. -/
def slashChar : Char := Char.ofNat 47

/-- Escape of a single character as performed by the chained
`String.replace` calls of `utils.sanitizeText`; the replacement entities
contain none of the escaped characters, so the chain acts per character. -/
def sanitizeChar (c : Char) : List Char :=
  if c = '<' then "&lt;".data
  else if c = '>' then "&gt;".data
  else if c = quoteChar then "&quot;".data
  else if c = apostropheChar then "&#x27;".data
  else if c = slashChar then "&#x2F;".data
  else [c]

/-- Character-list version of the sanitizer body. -/
def sanitizeChars : List Char → List Char
  | [] => []
  | c :: cs => sanitizeChar c ++ sanitizeChars cs

/-- Model of `utils.sanitizeText`: empty input yields the empty string,
otherwise the input is trimmed and every structural markup character is
escaped. -/
def sanitizeText (s : String) : String :=
  if s = "" then "" else ⟨sanitizeChars (jsTrim s).data⟩

/-- Model of `utils.isUserMuted`: a mute deadline is active when it is
present and strictly in the future. -/
def isUserMuted (muteUntil : Option Nat) (now : Nat) : Bool :=
  match muteUntil with
  | none => false
  | some t => decide (now < t)

/-- Model of `utils.getMuteTimeRemaining` (clamped at zero). -/
def getMuteTimeRemaining (muteUntil : Option Nat) (now : Nat) : Nat :=
  match muteUntil with
  | none => 0
  | some t => t - now

/-- First `chatrooms` row with the given id (queries without an
`is_active` filter). -/
def findChatroom (db : DB) (roomId : String) : Option ChatroomRow :=
  db.chatrooms.find? (fun c => c.roomId == roomId)

/-- First `chatrooms` row with the given id that is still active. -/
def findChatroomActive (db : DB) (roomId : String) : Option ChatroomRow :=
  db.chatrooms.find? (fun c => c.roomId == roomId && c.isActive)

/-- Model of `chatroomService.checkAdminPermission`: the creator of the
room always passes, otherwise an admin-grant row must exist. -/
def checkAdminPermission (db : DB) (uid roomId : String) : Bool :=
  match findChatroom db roomId with
  | some c =>
    if c.creatorUid == uid then true
    else (db.chatroomAdmins.find? (fun a => a.chatroomId == roomId && a.userUid == uid)).isSome
  | none =>
    (db.chatroomAdmins.find? (fun a => a.chatroomId == roomId && a.userUid == uid)).isSome

/-- The `user_mutes` row selected by `ORDER BY created_at DESC LIMIT 1`
among the active rows for the target in the room. -/
def latestActiveMute (db : DB) (roomId uid : String) : Option MuteRow :=
  (db.userMutes.filter
      (fun r => r.chatroomId == roomId && r.userUid == uid && r.isActive)).foldl
    (fun acc r =>
      match acc with
      | none => some r
      | some b => if b.createdAt < r.createdAt then some r else some b)
    none

/-- Result shape of `chatroomService.checkUserMuted`. -/
structure MuteStatus where
  isMuted : Bool
  muteUntil : Option Nat
  remaining : Nat
deriving Repr, DecidableEq

/-- The answer `checkUserMuted` gives when no active mute applies. -/
def notMutedStatus : MuteStatus :=
  { isMuted := false, muteUntil := none, remaining := 0 }

/-- Second half of `checkUserMuted`: the anonymous-user fallback, reading
`mute_until` from the active `anonymous_users` row. -/
def checkAnonMuted (db : DB) (now : Nat) (uid roomId : String) : MuteStatus :=
  match db.anonymousUsers.find?
      (fun a => a.uid == uid && a.chatroomId == roomId && a.isActive) with
  | some a =>
    if isUserMuted a.muteUntil now then
      { isMuted := true, muteUntil := a.muteUntil,
        remaining := getMuteTimeRemaining a.muteUntil now }
    else notMutedStatus
  | none => notMutedStatus

/-- Model of `chatroomService.checkUserMuted`: consult the most recent
active `user_mutes` record first, then fall back to the anonymous-user
mute field. -/
def checkUserMuted (db : DB) (now : Nat) (uid roomId : String) : MuteStatus :=
  match latestActiveMute db roomId uid with
  | some r =>
    if isUserMuted (some r.muteUntil) now then
      { isMuted := true, muteUntil := some r.muteUntil,
        remaining := getMuteTimeRemaining (some r.muteUntil) now }
    else checkAnonMuted db now uid roomId
  | none => checkAnonMuted db now uid roomId

/-- Input of `messageService.sendMessage`, with the same defaults the
destructuring assignment applies. -/
structure MessageData where
  chatroomId : String
  userUid : String
  userType : String := "user"
  content : Option String := none
  messageType : String := "text"
  imageUrl : Option String := none
  replyToMessageId : Option Nat := none
  bilibiliId : Option String := none
  markdownContent : Option String := none
  fileId : Option String := none
  fileName : Option String := none
  fileSize : Option Int := none
  fileExpiry : Option Int := none
deriving Repr, DecidableEq

/-- One constructor per `throw` site of `sendMessage`. -/
inductive SendErr where
  | imageMissingUrl
  | imageCaptionTooLong
  | bilibiliMissingId
  | bilibiliBadFormat
  | markdownEmpty
  | markdownTooLong
  | markdownTitleTooLong
  | fileMissingId
  | fileMissingName
  | fileBadSize
  | fileBadExpiry
  | fileMissingContent
  | textEmpty
  | textTooLong
  | muted (remainingMinutes : Nat)
  | replyTargetNotFound
deriving Repr, DecidableEq

/-- Check of the BV-identifier pattern `BV[a-zA-Z0-9]{10}` applied to the
trimmed id. -/
def isBvId (s : String) : Bool :=
  match s.data with
  | 'B' :: 'V' :: rest => rest.length == 10 && rest.all (fun c => c.isAlpha || c.isDigit)
  | _ => false

/-- Per-variant payload validation: the block of `sendMessage` before the
mute check, transcribed branch by branch. -/
def validateMessage (md : MessageData) : Option SendErr :=
  if md.messageType == "image" then
    if !(strTruthy md.imageUrl) then some .imageMissingUrl
    else if strTruthy md.content && decide ((md.content.getD "").length > 200) then
      some .imageCaptionTooLong
    else none
  else if md.messageType == "bilibili" then
    if !(strTruthy md.bilibiliId) || jsTrim (md.bilibiliId.getD "") == "" then
      some .bilibiliMissingId
    else if !(isBvId (jsTrim (md.bilibiliId.getD ""))) then some .bilibiliBadFormat
    else none
  else if md.messageType == "markdown" then
    if !(strTruthy md.markdownContent) || jsTrim (md.markdownContent.getD "") == "" then
      some .markdownEmpty
    else if decide ((md.markdownContent.getD "").length > 5000) then some .markdownTooLong
    else if strTruthy md.content && decide ((md.content.getD "").length > 100) then
      some .markdownTitleTooLong
    else none
  else if md.messageType == "file" then
    if !(strTruthy md.fileId) || jsTrim (md.fileId.getD "") == "" then some .fileMissingId
    else if !(strTruthy md.fileName) || jsTrim (md.fileName.getD "") == "" then
      some .fileMissingName
    else if (md.fileSize.map (fun n => decide (n ≤ 0))).getD true then some .fileBadSize
    else if (md.fileExpiry.map (fun n => decide (n ≤ 0))).getD true then some .fileBadExpiry
    else if !(strTruthy md.content) || jsTrim (md.content.getD "") == "" then
      some .fileMissingContent
    else none
  else
    if !(strTruthy md.content) || jsTrim (md.content.getD "") == "" then some .textEmpty
    else if decide ((md.content.getD "").length > 1000) then some .textTooLong
    else none

/-- The INSERT at the end of `sendMessage`, returning the persisted row. -/
def insertMessage (db : DB) (now : Nat) (newMessageId : String) (md : MessageData)
    (sanitizedContent : String) : MessageRow × DB :=
  let row : MessageRow :=
    { id := db.nextRowId
      messageId := newMessageId
      chatroomId := md.chatroomId
      senderUid := md.userUid
      senderType := md.userType
      content := sanitizedContent
      messageType := md.messageType
      imageUrl := md.imageUrl
      replyToMessageId := md.replyToMessageId
      bilibiliBv := md.bilibiliId
      markdownContent := md.markdownContent
      fileId := md.fileId
      fileName := md.fileName
      fileSize := md.fileSize
      fileExpiry := md.fileExpiry
      isDeleted := false
      deletedBy := none
      deletedAt := none
      createdAt := now }
  (row, { db with messages := db.messages ++ [row], nextRowId := db.nextRowId + 1 })

/-- Model of `messageService.sendMessage` up to and including the INSERT;
the code after the INSERT runs only SELECTs to enrich the returned object
and cannot change the store.  The fresh `message_id` is a parameter in
place of `utils.generateMessageId`. -/
def sendMessage (db : DB) (now : Nat) (newMessageId : String) (md : MessageData) :
    Except SendErr MessageRow × DB :=
  match validateMessage md with
  | some e => (.error e, db)
  | none =>
    let ms := checkUserMuted db now md.userUid md.chatroomId
    if ms.isMuted then
      (.error (.muted ((ms.remaining + 59999) / 60000)), db)
    else
      let sanitizedContent :=
        if strTruthy md.content then sanitizeText (md.content.getD "") else ""
      match md.replyToMessageId with
      | some rid =>
        match db.messages.find?
            (fun m => m.id == rid && m.chatroomId == md.chatroomId) with
        | none => (.error .replyTargetNotFound, db)
        | some _ =>
          (.ok (insertMessage db now newMessageId md sanitizedContent).1,
            (insertMessage db now newMessageId md sanitizedContent).2)
      | none =>
        (.ok (insertMessage db now newMessageId md sanitizedContent).1,
          (insertMessage db now newMessageId md sanitizedContent).2)

/-- The statements executed inside the `deleteMessage` transaction, in
source order; the oracle below says which of them reject. -/
inductive DelStep where
  | clearReplies
  | releaseFile
  | unlinkFile
  | deleteRow
  | commitTx
deriving Repr, DecidableEq

/-- One constructor per failure exit of `deleteMessage`. -/
inductive DelErr where
  | messageNotFound
  | noPermission
  | txFailed (step : DelStep)
deriving Repr, DecidableEq

/-- The UPDATE clearing `reply_to_message_id` on every message that
references the deleted row. -/
def clearReplyLinks (db : DB) (rowId : Nat) : DB :=
  { db with
    messages := db.messages.map (fun m =>
      if m.replyToMessageId == some rowId then { m with replyToMessageId := none } else m) }

/-- The UPDATE marking a file expired and detaching it from its message. -/
def releaseFileRow (db : DB) (fileId : String) : DB :=
  { db with
    files := db.files.map (fun f =>
      if f.fileId == fileId then { f with isExpired := true, messageId := none } else f) }

/-- The DELETE removing the message row itself. -/
def deleteMessageRow (db : DB) (rowId : Nat) : DB :=
  { db with messages := db.messages.filter (fun m => !(m.id == rowId)) }

/-- Model of `messageService.deleteMessage`.  The permission checks run
before the transaction; every statement between `BEGIN` and `COMMIT` may
reject (the `fail` oracle decides), in which case `ROLLBACK` restores the
durable store to its pre-transaction snapshot.  A failing physical
`fs.unlinkSync` is caught by the inner `try`/`catch` and only logged, so
it neither mutates the world nor aborts the transaction; the upload
directory itself is not transactional. -/
def deleteMessage (w : World) (fail : DelStep → Bool) (rowId : Nat)
    (deleterUid chatroomId : String) : Except DelErr Unit × World :=
  match w.db.messages.find? (fun m => m.id == rowId && m.chatroomId == chatroomId) with
  | none => (.error .messageNotFound, w)
  | some message =>
    let isAdmin := checkAdminPermission w.db deleterUid chatroomId
    let isOwner := message.senderUid == deleterUid
    if !isAdmin && !isOwner then (.error .noPermission, w)
    else
      -- BEGIN TRANSACTION: remember the snapshot ROLLBACK restores
      let snapshot := w.db
      if fail .clearReplies then (.error (.txFailed .clearReplies), { w with db := snapshot })
      else
        let db1 := clearReplyLinks w.db rowId
        let fileStep :
            Except DelErr (DB × List String) :=
          if message.messageType == "file" && strTruthy message.fileId then
            let fid := message.fileId.getD ""
            let fileInfo := w.db.files.find? (fun f => f.fileId == fid)
            if fail .releaseFile then .error (.txFailed .releaseFile)
            else
              let db2 := releaseFileRow db1 fid
              match fileInfo with
              | some fi =>
                if fail .unlinkFile then .ok (db2, w.storedFiles)
                else .ok (db2, w.storedFiles.filter (fun n => !(n == fi.storedName)))
              | none => .ok (db2, w.storedFiles)
          else .ok (db1, w.storedFiles)
        match fileStep with
        | .error e => (.error e, { w with db := snapshot })
        | .ok (db2, fs2) =>
          if fail .deleteRow then
            (.error (.txFailed .deleteRow), { db := snapshot, storedFiles := fs2 })
          else
            let db3 := deleteMessageRow db2 rowId
            if fail .commitTx then
              (.error (.txFailed .commitTx), { db := snapshot, storedFiles := fs2 })
            else (.ok (), { db := db3, storedFiles := fs2 })

/-- One constructor per failure exit of `deleteUserMessages`. -/
inductive BulkDelErr where
  | noPermission
  | creatorNotDeletable
deriving Repr, DecidableEq

/-- The transactional tail of `deleteUserMessages` (no statement of it is
made to fail here; the claims about it concern only the guards before
it): the sender's undeleted rows in the room are marked deleted, the file
rows of its file messages are released and their physical files removed. -/
def deleteUserMessagesTx (w : World) (now : Nat) (targetUid chatroomId deleterUid : String) :
    Except BulkDelErr Nat × World :=
  let isTarget : MessageRow → Bool := fun m =>
    m.chatroomId == chatroomId && m.senderUid == targetUid && !m.isDeleted
  let fileMessages := w.db.messages.filter
    (fun m => isTarget m && m.messageType == "file")
  let changed := (w.db.messages.filter isTarget).length
  let dbMarked : DB :=
    { w.db with
      messages := w.db.messages.map (fun m =>
        if isTarget m then
          { m with isDeleted := true, deletedBy := some deleterUid, deletedAt := some now }
        else m) }
  let db2 := fileMessages.foldl
    (fun db m => match m.fileId with
      | some fid => if strTruthy m.fileId then releaseFileRow db fid else db
      | none => db)
    dbMarked
  let fs2 := fileMessages.foldl
    (fun fs m =>
      match m.fileId with
      | some fid =>
        if strTruthy m.fileId then
          match w.db.files.find? (fun f => f.fileId == fid) with
          | some fi => fs.filter (fun n => !(n == fi.storedName))
          | none => fs
        else fs
      | none => fs)
    w.storedFiles
  (.ok changed, { db := db2, storedFiles := fs2 })

/-- Model of `messageService.deleteUserMessages` (bulk delete by sender):
admin-only, with an explicit refusal to touch the room creator's
messages. -/
def deleteUserMessages (w : World) (now : Nat) (targetUid chatroomId deleterUid : String) :
    Except BulkDelErr Nat × World :=
  if !(checkAdminPermission w.db deleterUid chatroomId) then (.error .noPermission, w)
  else
    match findChatroom w.db chatroomId with
    | some c =>
      if c.creatorUid == targetUid then (.error .creatorNotDeletable, w)
      else deleteUserMessagesTx w now targetUid chatroomId deleterUid
    | none => deleteUserMessagesTx w now targetUid chatroomId deleterUid

/-- One constructor per failure exit of `kickUser`. -/
inductive KickErr where
  | roomNotFound
  | notCreator
  | selfKick
  | notInRoom
deriving Repr, DecidableEq

/-- The three statements `kickUser` runs once its guards pass: the
membership row is transitioned to `left`/inactive, the target's
admin-grant rows are deleted and its `user_mutes` rows are deleted.  The
`anonymous_users` table is not touched. -/
def kickApply (db : DB) (now : Nat) (roomId targetUid : String) : DB :=
  let db1 : DB :=
    { db with
      chatroomMembers := db.chatroomMembers.map (fun m =>
        if m.chatroomId == roomId && m.userUid == targetUid then
          { m with isActive := false, status := "left", lastActive := now }
        else m) }
  let db2 : DB :=
    { db1 with
      chatroomAdmins := db1.chatroomAdmins.filter (fun a =>
        !(a.chatroomId == roomId && a.userUid == targetUid)) }
  { db2 with
    userMutes := db2.userMutes.filter (fun r =>
      !(r.userUid == targetUid && r.chatroomId == roomId)) }

/-- Model of `chatroomService.kickUser`: creator-only on an active room,
not self-targetable, target must be an active member; on success the
three kick statements run. -/
def kickUser (db : DB) (now : Nat) (roomId targetUid kickerUid : String) :
    Except KickErr Unit × DB :=
  match findChatroomActive db roomId with
  | none => (.error .roomNotFound, db)
  | some chatroom =>
    if !(chatroom.creatorUid == kickerUid) then (.error .notCreator, db)
    else if targetUid == kickerUid then (.error .selfKick, db)
    else
      match db.chatroomMembers.find?
          (fun m => m.chatroomId == roomId && m.userUid == targetUid && m.isActive) with
      | none => (.error .notInRoom, db)
      | some _ => (.ok (), kickApply db now roomId targetUid)

/-- The uid-generation loop of `createAnonymousUser`: try candidate uids
in order against the `anonymous_users` table, giving up after ten
collisions. -/
def pickFreshAnonUid (db : DB) : List String → Nat → Option String
  | [], _ => none
  | _, 0 => none
  | uid :: rest, fuel + 1 =>
    if (db.anonymousUsers.find? (fun a => a.uid == uid)).isSome then
      pickFreshAnonUid db rest fuel
    else some uid

/-- Model of `userService.createAnonymousUser`: a fresh anonymous
principal starts with `mute_until` set to the creation time plus the
configured anonymous mute duration.  The random uid candidates are a
parameter in place of `utils.generateAnonymousUID`. -/
def createAnonymousUser (cfg : AnonConfig) (db : DB) (now : Nat)
    (uidCandidates : List String) (chatroomId : String) :
    Except String AnonUserRow × DB :=
  match pickFreshAnonUid db uidCandidates 10 with
  | none => (.error "busy", db)
  | some uid =>
    let muteUntil := now + cfg.muteDuration
    let row : AnonUserRow :=
      { uid := uid
        chatroomId := chatroomId
        nickname := "匿名用户" ++ String.mk (uid.data.drop (uid.length - 4))
        avatarUrl := some ("/avatars/" ++ uid)
        muteUntil := some muteUntil
        isActive := true
        joinTime := now
        lastActive := now }
    (.ok row, { db with anonymousUsers := db.anonymousUsers ++ [row] })

/-- One constructor per failure exit of `joinChatroom`. -/
inductive JoinErr where
  | roomNotFoundOrClosed
  | passwordRequired
  | invalidPassword
deriving Repr, DecidableEq

/-- The object `joinChatroom` returns on success. -/
structure JoinedRoom where
  roomId : String
  name : String
  creatorUid : String
  isOwner : Bool
deriving Repr, DecidableEq

/-- Model of `chatroomService.joinChatroom` (the HTTP `/join` path).  The
bcrypt comparison `utils.verifyPassword` is external and enters as the
`verify` parameter. -/
def joinChatroom (verify : String → String → Bool) (db : DB) (roomId : String)
    (password : Option String) (userUid : Option String) : Except JoinErr JoinedRoom :=
  match findChatroomActive db roomId with
  | none => .error .roomNotFoundOrClosed
  | some chatroom =>
    let granted : Except JoinErr Unit :=
      match chatroom.passwordHash with
      | some hash =>
        if strTruthy userUid && chatroom.creatorUid == userUid.getD "" then .ok ()
        else if !(strTruthy password) then .error .passwordRequired
        else if !(verify (password.getD "") hash) then .error .invalidPassword
        else .ok ()
      | none => .ok ()
    match granted with
    | .error e => .error e
    | .ok () =>
      .ok { roomId := chatroom.roomId
            name := chatroom.name
            creatorUid := chatroom.creatorUid
            isOwner := userUid == some chatroom.creatorUid }

/-- The identity a socket carries after authentication (`socket.user`);
these fields never change while the socket lives. -/
structure SocketUser where
  uid : String
  nickname : String
  avatarUrl : Option String
  userType : String
deriving Repr, DecidableEq

/-- A live connection: its authenticated user plus the mutable
`currentRoom` field the handlers read and write. -/
structure Socket where
  user : SocketUser
  currentRoom : Option String
deriving Repr, DecidableEq

/-- In-memory server state: the durable store plus the presence registry
(`onlineUsers : roomId -> Set of uids`) and the uid-to-socket map
(`userSockets`, here the identities of the registered sockets). -/
structure Server where
  db : DB
  onlineUsers : List (String × List String)
  userSockets : List (String × SocketUser)
deriving Repr, DecidableEq

/-- Events a handler emits to clients. -/
inductive Event where
  | userJoined (roomId uid : String)
  | roomJoined (roomId : String)
  | userLeft (roomId uid : String)
  | errorEvt
deriving Repr, DecidableEq

/-- Lookup in an association list keyed by strings. -/
def alookup {α : Type} (l : List (String × α)) (k : String) : Option α :=
  (l.find? (fun p => p.1 == k)).map (fun p => p.2)

/-- Update or insert in an association list keyed by strings. -/
def aset {α : Type} (l : List (String × α)) (k : String) (v : α) : List (String × α) :=
  if (l.find? (fun p => p.1 == k)).isSome then
    l.map (fun p => if p.1 == k then (k, v) else p)
  else l ++ [(k, v)]

/-- Removal from an association list keyed by strings. -/
def aremove {α : Type} (l : List (String × α)) (k : String) : List (String × α) :=
  l.filter (fun p => !(p.1 == k))

/-- JavaScript `Set.add` on the insertion-ordered element list. -/
def setAdd (l : List String) (x : String) : List String :=
  if l.contains x then l else l ++ [x]

/-- JavaScript `Set.delete` on the insertion-ordered element list. -/
def setDelete (l : List String) (x : String) : List String :=
  l.filter (fun y => !(y == x))

/-- Model of `chatroomService.addMemberToChatroom` (`INSERT OR REPLACE`
keyed by `(chatroom_id, user_uid)`); its errors are swallowed. -/
def addMemberToChatroom (db : DB) (now : Nat) (roomId : String) (u : SocketUser) : DB :=
  let newRow : MemberRow :=
    { chatroomId := roomId
      userUid := u.uid
      userType := u.userType
      nickname := u.nickname
      avatarUrl := u.avatarUrl
      joinTime := now
      lastActive := now
      status := "online"
      isActive := true }
  if (db.chatroomMembers.find?
      (fun m => m.chatroomId == roomId && m.userUid == u.uid)).isSome then
    { db with
      chatroomMembers := db.chatroomMembers.map (fun m =>
        if m.chatroomId == roomId && m.userUid == u.uid then newRow else m) }
  else { db with chatroomMembers := db.chatroomMembers ++ [newRow] }

/-- Model of `chatroomService.setMemberOffline`; its errors are
swallowed. -/
def setMemberOffline (db : DB) (now : Nat) (roomId uid : String) : DB :=
  { db with
    chatroomMembers := db.chatroomMembers.map (fun m =>
      if m.chatroomId == roomId && m.userUid == uid then
        { m with status := "offline", lastActive := now }
      else m) }

/-- An entry of the enriched online list. -/
structure OnlineEntry where
  uid : String
  nickname : String
  avatarUrl : Option String
  userType : String
  isAdmin : Bool
  isCreator : Bool
  isMuted : Bool
  muteUntil : Option Nat
deriving Repr, DecidableEq

/-- The body of the `getOnlineUserList` loop: keep the uids that still
have a registered socket and decorate each with live admin, creator and
mute flags; `getChatroomInfo` inside the loop throws when the room is
missing or inactive. -/
def onlineEntries (sv : Server) (now : Nat) (roomId : String) :
    List String → Except String (List OnlineEntry)
  | [] => .ok []
  | uid :: rest =>
    match alookup sv.userSockets uid with
    | none => onlineEntries sv now roomId rest
    | some su =>
      match findChatroomActive sv.db roomId with
      | none => .error "room missing"
      | some chatroom =>
        match onlineEntries sv now roomId rest with
        | .error e => .error e
        | .ok tail =>
          let ms := checkUserMuted sv.db now uid roomId
          .ok ({ uid := su.uid
                 nickname := su.nickname
                 avatarUrl := su.avatarUrl
                 userType := su.userType
                 isAdmin := checkAdminPermission sv.db uid roomId
                 isCreator := chatroom.creatorUid == uid
                 isMuted := ms.isMuted
                 muteUntil := ms.muteUntil } :: tail)

/-- Model of `ChatroomServer.getOnlineUserList`. -/
def getOnlineUserList (sv : Server) (now : Nat) (roomId : String) :
    Except String (List OnlineEntry) :=
  match alookup sv.onlineUsers roomId with
  | none => .ok []
  | some uids => onlineEntries sv now roomId uids

/-- Model of the socket `join-room` handler (src/app.js).  It validates
only that the room exists and is active (`getChatroomInfo`); it never
reads a password.  On success it records `currentRoom`, upserts the
membership row, adds the uid to the room's presence set and emits
`user-joined` to the others plus `room-joined` to the joiner; on error it
emits only an error event and changes nothing. -/
def joinRoomHandler (sv : Server) (sk : Socket) (now : Nat) (roomId : String) :
    Server × Socket × List Event :=
  match findChatroomActive sv.db roomId with
  | none => (sv, sk, [.errorEvt])
  | some _ =>
    let sk1 := { sk with currentRoom := some roomId }
    let db1 := addMemberToChatroom sv.db now roomId sk.user
    let roomSet := (alookup sv.onlineUsers roomId).getD []
    let ou1 := aset sv.onlineUsers roomId (setAdd roomSet sk.user.uid)
    let sv1 := { sv with db := db1, onlineUsers := ou1 }
    (sv1, sk1, [.userJoined roomId sk.user.uid, .roomJoined roomId])

/-- Model of `ChatroomServer.handleUserLeaveRoom` (explicit `leave-room`
or transport disconnect).  With no current room it is a no-op.  Otherwise
it marks the membership offline, removes the uid from the presence set
(dropping the room's entry when it empties), recomputes the online list
for the `user-left` payload — a rejection there aborts the rest of the
handler — and finally clears `currentRoom`. -/
def handleUserLeaveRoom (sv : Server) (sk : Socket) (now : Nat) :
    Server × Socket × List Event :=
  match sk.currentRoom with
  | none => (sv, sk, [])
  | some roomId =>
    let db1 := setMemberOffline sv.db now roomId sk.user.uid
    let ou1 :=
      match alookup sv.onlineUsers roomId with
      | none => sv.onlineUsers
      | some uids =>
        let uids1 := setDelete uids sk.user.uid
        if uids1.isEmpty then aremove sv.onlineUsers roomId
        else aset sv.onlineUsers roomId uids1
    let sv1 := { sv with db := db1, onlineUsers := ou1 }
    match getOnlineUserList sv1 now roomId with
    | .error _ => (sv1, sk, [])
    | .ok _ => (sv1, { sk with currentRoom := none }, [.userLeft roomId sk.user.uid])

/-! ## Concrete fixtures used by witnesses and counterexamples -/

/-- A password-free active room created by `creator`. -/
def roomA : ChatroomRow :=
  { roomId := "R1", name := "room", passwordHash := none, creatorUid := "creator",
    isActive := true, createdAt := 0 }

/-- A password-protected active room created by `creator`. -/
def roomP : ChatroomRow :=
  { roomId := "RP", name := "locked", passwordHash := some "hash", creatorUid := "creator",
    isActive := true, createdAt := 0 }

/-- An active mute of `alice` in room `R1` until t = 1000000. -/
def muteAlice : MuteRow :=
  { chatroomId := "R1", userUid := "alice", mutedBy := "creator", reason := "",
    muteUntil := 1000000, isActive := true, createdAt := 10 }

/-- Store with room `R1` and `alice` actively muted. -/
def dbMuted : DB :=
  { chatrooms := [roomA], anonymousUsers := [], chatroomAdmins := [], userMutes := [muteAlice],
    chatroomMembers := [], messages := [], files := [], nextRowId := 1 }

/-- Store with room `R1` and nobody muted. -/
def dbPlain : DB :=
  { chatrooms := [roomA], anonymousUsers := [], chatroomAdmins := [], userMutes := [],
    chatroomMembers := [], messages := [], files := [], nextRowId := 1 }

/-- A plain valid text payload from the muted `alice`. -/
def mdAliceHi : MessageData :=
  { chatroomId := "R1", userUid := "alice", content := some "hi" }

/-- An empty text payload from the muted `alice`. -/
def mdAliceEmpty : MessageData :=
  { chatroomId := "R1", userUid := "alice", content := some "" }

/-- A 1001-character text payload from the muted `alice`. -/
def mdAliceLong : MessageData :=
  { chatroomId := "R1", userUid := "alice", content := some (String.mk (List.replicate 1001 'a')) }

/-- A markdown payload from the unmuted `bob` whose body carries markup. -/
def mdBobMarkdown : MessageData :=
  { chatroomId := "R1", userUid := "bob", messageType := "markdown",
    markdownContent := some "<b>x</b>" }

/-- A plain valid text payload from the unmuted `bob`. -/
def mdBobHi : MessageData :=
  { chatroomId := "R1", userUid := "bob", content := some "hi" }

/-! ## General lemmas about the send pipeline -/

/-- Sanitized output never contains the structural markup characters the
sanitizer escapes. -/
def noMarkup (s : String) : Prop :=
  ∀ c ∈ s.data, ¬(c = '<' ∨ c = '>' ∨ c = quoteChar)

theorem sanitizeChar_no_markup (c0 c : Char) (h : c ∈ sanitizeChar c0) :
    ¬(c = '<' ∨ c = '>' ∨ c = quoteChar) := by
  unfold sanitizeChar at h
  by_cases h1 : c0 = '<'
  · rw [if_pos h1] at h
    exact (by decide : ∀ x ∈ "&lt;".data, ¬(x = '<' ∨ x = '>' ∨ x = quoteChar)) c h
  · rw [if_neg h1] at h
    by_cases h2 : c0 = '>'
    · rw [if_pos h2] at h
      exact (by decide : ∀ x ∈ "&gt;".data, ¬(x = '<' ∨ x = '>' ∨ x = quoteChar)) c h
    · rw [if_neg h2] at h
      by_cases h3 : c0 = quoteChar
      · rw [if_pos h3] at h
        exact (by decide : ∀ x ∈ "&quot;".data, ¬(x = '<' ∨ x = '>' ∨ x = quoteChar)) c h
      · rw [if_neg h3] at h
        by_cases h4 : c0 = apostropheChar
        · rw [if_pos h4] at h
          exact (by decide : ∀ x ∈ "&#x27;".data, ¬(x = '<' ∨ x = '>' ∨ x = quoteChar)) c h
        · rw [if_neg h4] at h
          by_cases h5 : c0 = slashChar
          · rw [if_pos h5] at h
            exact (by decide : ∀ x ∈ "&#x2F;".data, ¬(x = '<' ∨ x = '>' ∨ x = quoteChar)) c h
          · rw [if_neg h5] at h
            rcases List.mem_singleton.mp h with rfl
            rintro (rfl | rfl | rfl)
            · exact h1 rfl
            · exact h2 rfl
            · exact h3 rfl

theorem sanitizeChars_no_markup (l : List Char) (c : Char) (h : c ∈ sanitizeChars l) :
    ¬(c = '<' ∨ c = '>' ∨ c = quoteChar) := by
  induction l with
  | nil => simp [sanitizeChars] at h
  | cons c0 cs ih =>
    simp only [sanitizeChars, List.mem_append] at h
    rcases h with h | h
    · exact sanitizeChar_no_markup c0 c h
    · exact ih h

theorem sanitizeText_no_markup (s : String) : noMarkup (sanitizeText s) := by
  intro c hc
  unfold sanitizeText at hc
  split at hc
  · simp at hc
  · exact sanitizeChars_no_markup _ c hc

theorem noMarkup_empty : noMarkup "" := by
  intro c hc
  simp at hc

/-- The send pipeline runs per-variant validation first: a payload that
fails validation is rejected with that validation error and nothing is
persisted, whatever the sender's mute state. -/
theorem sendMessage_validates_first (db : DB) (now : Nat) (mid : String) (md : MessageData)
    (e : SendErr) (h : validateMessage md = some e) :
    sendMessage db now mid md = (.error e, db) := by
  unfold sendMessage
  rw [h]

/-- A sender whose payload passes validation and who holds an active mute
is rejected with the mute error and nothing is persisted. -/
theorem sendMessage_muted_after_validation (db : DB) (now : Nat) (mid : String)
    (md : MessageData) (hv : validateMessage md = none)
    (hm : (checkUserMuted db now md.userUid md.chatroomId).isMuted = true) :
    sendMessage db now mid md =
      (.error (.muted (((checkUserMuted db now md.userUid md.chatroomId).remaining + 59999)
        / 60000)), db) := by
  unfold sendMessage
  rw [hv]
  simp only [hm, if_true]

/-! ## C1 -/

/-- Claim C1, counterexample: `alice` holds an active mute in `R1`
(`muteUntil = 1000000 > now = 100`), yet a send of an empty text payload
is rejected with the empty-content validation error, not with the mute
error (and the claim asserts the mute error on every send by a muted
principal). -/
theorem muted_send_rejects_with_validation_error :
    (checkUserMuted dbMuted 100 "alice" "R1").isMuted = true ∧
    sendMessage dbMuted 100 "m1" mdAliceEmpty = (.error .textEmpty, dbMuted) ∧
    SendErr.textEmpty ≠ SendErr.muted ((getMuteTimeRemaining (some 1000000) 100 + 59999)
      / 60000) := by
  refine ⟨by decide, by decide, by decide⟩

/-- Claim C1 (amended): while a principal holds an active mute, every
send by it in that room is rejected and never inserts a message row; the
rejection carries the mute error whenever the payload passes per-variant
validation (otherwise the validation error raised earlier is returned). -/
theorem muted_send_always_rejects_never_persists (db : DB) (now : Nat) (mid : String)
    (md : MessageData)
    (hm : (checkUserMuted db now md.userUid md.chatroomId).isMuted = true) :
    (sendMessage db now mid md).2 = db ∧
    (∃ e, (sendMessage db now mid md).1 = .error e) ∧
    (validateMessage md = none →
      (sendMessage db now mid md).1 =
        .error (.muted (((checkUserMuted db now md.userUid md.chatroomId).remaining + 59999)
          / 60000))) := by
  cases hv : validateMessage md with
  | some e =>
    rw [sendMessage_validates_first db now mid md e hv]
    exact ⟨rfl, ⟨e, rfl⟩, fun hc => absurd hc (Option.some_ne_none e)⟩
  | none =>
    rw [sendMessage_muted_after_validation db now mid md hv hm]
    exact ⟨rfl, ⟨_, rfl⟩, fun _ => rfl⟩

/-- Witness for the amended C1 theorem at a concrete muted sender with a
valid payload. -/
theorem muted_send_always_rejects_never_persists_witness :
    (checkUserMuted dbMuted 100 "alice" "R1").isMuted = true ∧
    ((sendMessage dbMuted 100 "m1" mdAliceHi).2 = dbMuted ∧
     (∃ e, (sendMessage dbMuted 100 "m1" mdAliceHi).1 = .error e) ∧
     (validateMessage mdAliceHi = none →
       (sendMessage dbMuted 100 "m1" mdAliceHi).1 =
         .error (.muted (((checkUserMuted dbMuted 100 "alice" "R1").remaining + 59999)
           / 60000)))) :=
  ⟨by decide, muted_send_always_rejects_never_persists dbMuted 100 "m1" mdAliceHi (by decide)⟩

/-! ## C9 -/

/-- Claim C9, counterexample: `alice` holds an active mute and submits a
1001-character text payload; the send is rejected with the length
validation error, so per-variant validation runs before the mute check,
not after it as the claim states. -/
theorem muted_overlong_send_gets_length_error :
    (checkUserMuted dbMuted 100 "alice" "R1").isMuted = true ∧
    sendMessage dbMuted 100 "m1" mdAliceLong = (.error .textTooLong, dbMuted) := by
  constructor
  · decide
  · apply sendMessage_validates_first
    decide

/-- Claim C9 (amended): the send pipeline performs per-variant payload
validation before the mute check: an invalid payload is rejected with its
validation error whatever the sender's mute state, and the mute error is
produced exactly for payloads that pass validation while an active mute
is present. -/
theorem sendMessage_validation_before_mute (db : DB) (now : Nat) (mid : String)
    (md : MessageData) :
    (∀ e, validateMessage md = some e → sendMessage db now mid md = (.error e, db)) ∧
    (validateMessage md = none →
      (checkUserMuted db now md.userUid md.chatroomId).isMuted = true →
      sendMessage db now mid md =
        (.error (.muted (((checkUserMuted db now md.userUid md.chatroomId).remaining + 59999)
          / 60000)), db)) :=
  ⟨fun e he => sendMessage_validates_first db now mid md e he,
   fun hv hm => sendMessage_muted_after_validation db now mid md hv hm⟩

/-- Witness for the amended C9 theorem: both branches exercised at
concrete payloads of the muted `alice`. -/
theorem sendMessage_validation_before_mute_witness :
    (validateMessage mdAliceEmpty = some .textEmpty ∧
      sendMessage dbMuted 100 "m1" mdAliceEmpty = (.error .textEmpty, dbMuted)) ∧
    (validateMessage mdAliceHi = none ∧
      (checkUserMuted dbMuted 100 "alice" "R1").isMuted = true ∧
      sendMessage dbMuted 100 "m1" mdAliceHi =
        (.error (.muted (((checkUserMuted dbMuted 100 "alice" "R1").remaining + 59999)
          / 60000)), dbMuted)) :=
  ⟨⟨by decide,
    (sendMessage_validation_before_mute dbMuted 100 "m1" mdAliceEmpty).1 .textEmpty (by decide)⟩,
   ⟨by decide, by decide,
    (sendMessage_validation_before_mute dbMuted 100 "m1" mdAliceHi).2 (by decide) (by decide)⟩⟩

/-! ## C8 -/

/-- Claim C8, counterexample: an accepted markdown message is persisted
with its body exactly as submitted — the markup characters of
`<b>x</b>` are not escaped — so not every free-text field of a persisted
row is sanitized. -/
theorem markdown_body_persisted_unescaped :
    ((sendMessage dbPlain 100 "m1" mdBobMarkdown).2.messages.map
      (fun m => m.markdownContent)) = [some "<b>x</b>"] ∧
    '<' ∈ "<b>x</b>".data := by
  refine ⟨by decide, by decide⟩

/-- Claim C8 (amended): every message accepted by send is persisted as a
single appended row whose `content` field — the text content, image
caption, markdown title or file display name — is sanitized (no `<`, `>`
or double-quote survives); the markdown body, in contrast, is persisted
verbatim and may retain markup, as the counterexample shows. -/
theorem sendMessage_content_field_sanitized (db : DB) (now : Nat) (mid : String)
    (md : MessageData) (r : MessageRow) (db2 : DB)
    (h : sendMessage db now mid md = (.ok r, db2)) :
    db2.messages = db.messages ++ [r] ∧ noMarkup r.content := by
  have hrow : ∀ sc : String, noMarkup sc →
      (insertMessage db now mid md sc).1 = r → (insertMessage db now mid md sc).2 = db2 →
      db2.messages = db.messages ++ [r] ∧ noMarkup r.content := by
    intro sc hsc h1 h2
    subst h1
    subst h2
    exact ⟨rfl, hsc⟩
  have hsan : noMarkup (if strTruthy md.content then sanitizeText (md.content.getD "") else "") := by
    by_cases hc : strTruthy md.content = true
    · simp only [hc, if_true]
      exact sanitizeText_no_markup _
    · rw [Bool.not_eq_true] at hc
      simp only [hc, Bool.false_eq_true, if_false]
      exact noMarkup_empty
  unfold sendMessage at h
  cases hv : validateMessage md with
  | some e => rw [hv] at h; simp at h
  | none =>
    rw [hv] at h
    by_cases hm : (checkUserMuted db now md.userUid md.chatroomId).isMuted = true
    · simp only [hm, if_true] at h
      simp at h
    · rw [Bool.not_eq_true] at hm
      simp only [hm, Bool.false_eq_true, if_false] at h
      cases hr : md.replyToMessageId with
      | none =>
        rw [hr] at h
        simp only [Prod.mk.injEq, Except.ok.injEq] at h
        exact hrow _ hsan h.1 h.2
      | some rid =>
        rw [hr] at h
        dsimp only at h
        cases hf : db.messages.find? (fun m => m.id == rid && m.chatroomId == md.chatroomId) with
        | none => rw [hf] at h; simp at h
        | some m0 =>
          rw [hf] at h
          simp only [Prod.mk.injEq, Except.ok.injEq] at h
          exact hrow _ hsan h.1 h.2

/-- Witness for the amended C8 theorem: a concrete accepted text message
whose persisted content is markup-free. -/
theorem sendMessage_content_field_sanitized_witness :
    sendMessage dbPlain 100 "m1" mdBobHi =
      (.ok ((sendMessage dbPlain 100 "m1" mdBobHi).2.messages.headI),
        (sendMessage dbPlain 100 "m1" mdBobHi).2) ∧
    ((sendMessage dbPlain 100 "m1" mdBobHi).2.messages =
        dbPlain.messages ++ [(sendMessage dbPlain 100 "m1" mdBobHi).2.messages.headI] ∧
      noMarkup ((sendMessage dbPlain 100 "m1" mdBobHi).2.messages.headI).content) :=
  ⟨by decide,
   sendMessage_content_field_sanitized dbPlain 100 "m1" mdBobHi
     ((sendMessage dbPlain 100 "m1" mdBobHi).2.messages.headI)
     ((sendMessage dbPlain 100 "m1" mdBobHi).2) (by decide)⟩

/-! ## Deletion: shared lemmas and fixtures -/

/-- Template message row for fixtures. -/
def baseMsg : MessageRow :=
  { id := 0, messageId := "", chatroomId := "R1", senderUid := "creator", senderType := "user",
    content := "", messageType := "text", imageUrl := none, replyToMessageId := none,
    bilibiliBv := none, markdownContent := none, fileId := none, fileName := none,
    fileSize := none, fileExpiry := none, isDeleted := false, deletedBy := none,
    deletedAt := none, createdAt := 0 }

/-- A persisted file message referencing file `F1`. -/
def msgFile : MessageRow :=
  { baseMsg with
    id := 1
    messageId := "mf"
    content := "doc.txt"
    messageType := "file"
    fileId := some "F1"
    fileName := some "doc.txt"
    fileSize := some 10
    fileExpiry := some 99999
    createdAt := 5 }

/-- The `files` row behind `msgFile`. -/
def fileF1 : FileRow :=
  { fileId := "F1", storedName := "stored1.file", messageId := some "mf", isExpired := false }

/-- World holding the file message and its physical file. -/
def wFile : World :=
  { db := { dbPlain with messages := [msgFile], files := [fileF1], nextRowId := 2 },
    storedFiles := ["stored1.file"] }

/-- A plain text message `M1`. -/
def msgM1 : MessageRow :=
  { baseMsg with id := 1, messageId := "m1", content := "hello", createdAt := 5 }

/-- A reply `M2` referencing `M1`. -/
def msgM2 : MessageRow :=
  { baseMsg with
    id := 2
    messageId := "m2"
    content := "re"
    replyToMessageId := some 1
    createdAt := 6 }

/-- World holding `M1` and its reply `M2`. -/
def wReply : World :=
  { db := { dbPlain with messages := [msgM1, msgM2], nextRowId := 3 }, storedFiles := [] }

/-- Oracle under which no transaction statement rejects. -/
def noFail : DelStep → Bool := fun _ => false

/-- Oracle under which exactly the file-release UPDATE rejects. -/
def failRelease : DelStep → Bool := fun s => s == .releaseFile

/-- Case analysis of `deleteMessage`: either it errors and rollback has
restored the durable store to the initial snapshot, or it succeeds and
the final store is exactly the three-step transaction applied to the
initial one (with the file-release step present exactly for a file
message carrying a file id). -/
theorem deleteMessage_shape (w : World) (fail : DelStep → Bool) (rowId : Nat) (u rid : String) :
    ((deleteMessage w fail rowId u rid).1 ≠ .ok () ∧
      (deleteMessage w fail rowId u rid).2.db = w.db) ∨
    ((deleteMessage w fail rowId u rid).1 = .ok () ∧
      ∃ m0, w.db.messages.find? (fun m => m.id == rowId && m.chatroomId == rid) = some m0 ∧
        (((m0.messageType == "file" && strTruthy m0.fileId) = true ∧
            (deleteMessage w fail rowId u rid).2.db =
              deleteMessageRow (releaseFileRow (clearReplyLinks w.db rowId) (m0.fileId.getD ""))
                rowId) ∨
         ((m0.messageType == "file" && strTruthy m0.fileId) = false ∧
            (deleteMessage w fail rowId u rid).2.db =
              deleteMessageRow (clearReplyLinks w.db rowId) rowId))) := by
  unfold deleteMessage
  cases hfind : w.db.messages.find? (fun m => m.id == rowId && m.chatroomId == rid) with
  | none => exact .inl ⟨fun hh => Except.noConfusion hh, rfl⟩
  | some m0 =>
    dsimp only
    by_cases hperm : (!checkAdminPermission w.db u rid && !(m0.senderUid == u)) = true
    · rw [if_pos hperm]
      exact .inl ⟨fun hh => Except.noConfusion hh, rfl⟩
    · rw [if_neg hperm]
      by_cases h1 : fail .clearReplies = true
      · rw [if_pos h1]
        exact .inl ⟨fun hh => Except.noConfusion hh, rfl⟩
      · rw [if_neg h1]
        by_cases hfile : (m0.messageType == "file" && strTruthy m0.fileId) = true
        · rw [if_pos hfile]
          by_cases h2 : fail .releaseFile = true
          · rw [if_pos h2]
            dsimp only
            exact .inl ⟨fun hh => Except.noConfusion hh, rfl⟩
          · rw [if_neg h2]
            cases hfi : w.db.files.find? (fun f => f.fileId == m0.fileId.getD "") with
            | some fi =>
              dsimp only
              by_cases h3 : fail .unlinkFile = true
              · rw [if_pos h3]
                dsimp only
                by_cases h4 : fail .deleteRow = true
                · rw [if_pos h4]
                  exact .inl ⟨fun hh => Except.noConfusion hh, rfl⟩
                · rw [if_neg h4]
                  by_cases h5 : fail .commitTx = true
                  · rw [if_pos h5]
                    exact .inl ⟨fun hh => Except.noConfusion hh, rfl⟩
                  · rw [if_neg h5]
                    exact .inr ⟨rfl, m0, rfl, .inl ⟨hfile, rfl⟩⟩
              · rw [if_neg h3]
                dsimp only
                by_cases h4 : fail .deleteRow = true
                · rw [if_pos h4]
                  exact .inl ⟨fun hh => Except.noConfusion hh, rfl⟩
                · rw [if_neg h4]
                  by_cases h5 : fail .commitTx = true
                  · rw [if_pos h5]
                    exact .inl ⟨fun hh => Except.noConfusion hh, rfl⟩
                  · rw [if_neg h5]
                    exact .inr ⟨rfl, m0, rfl, .inl ⟨hfile, rfl⟩⟩
            | none =>
              dsimp only
              by_cases h4 : fail .deleteRow = true
              · rw [if_pos h4]
                exact .inl ⟨fun hh => Except.noConfusion hh, rfl⟩
              · rw [if_neg h4]
                by_cases h5 : fail .commitTx = true
                · rw [if_pos h5]
                  exact .inl ⟨fun hh => Except.noConfusion hh, rfl⟩
                · rw [if_neg h5]
                  exact .inr ⟨rfl, m0, rfl, .inl ⟨hfile, rfl⟩⟩
        · rw [if_neg hfile]
          dsimp only
          by_cases h4 : fail .deleteRow = true
          · rw [if_pos h4]
            exact .inl ⟨fun hh => Except.noConfusion hh, rfl⟩
          · rw [if_neg h4]
            by_cases h5 : fail .commitTx = true
            · rw [if_pos h5]
              exact .inl ⟨fun hh => Except.noConfusion hh, rfl⟩
            · rw [if_neg h5]
              have hfile' : (m0.messageType == "file" && strTruthy m0.fileId) = false := by
                revert hfile
                cases m0.messageType == "file" && strTruthy m0.fileId <;> simp
              exact .inr ⟨rfl, m0, rfl, .inr ⟨hfile', rfl⟩⟩

theorem messages_releaseFileRow (db : DB) (fid : String) :
    (releaseFileRow db fid).messages = db.messages := rfl

theorem mem_clearReplyLinks_no_ref (db : DB) (rowId : Nat) (m : MessageRow)
    (hm : m ∈ (clearReplyLinks db rowId).messages) : ¬(m.replyToMessageId = some rowId) := by
  unfold clearReplyLinks at hm
  simp only [List.mem_map] at hm
  obtain ⟨m1, _, hmap⟩ := hm
  by_cases hc : (m1.replyToMessageId == some rowId) = true
  · rw [if_pos hc] at hmap
    rw [← hmap]
    simp
  · rw [if_neg hc] at hmap
    rw [← hmap]
    simpa using hc

theorem mem_deleteMessageRow (db : DB) (rowId : Nat) (m : MessageRow)
    (hm : m ∈ (deleteMessageRow db rowId).messages) :
    m ∈ db.messages ∧ ¬(m.id = rowId) := by
  unfold deleteMessageRow at hm
  simp only [List.mem_filter, Bool.not_eq_eq_eq_not, Bool.not_true, beq_eq_false_iff_ne,
    ne_eq] at hm
  exact hm

theorem mem_deleteMessageRow_of (db : DB) (rowId : Nat) (m : MessageRow)
    (hm : m ∈ db.messages) (hne : ¬(m.id = rowId)) :
    m ∈ (deleteMessageRow db rowId).messages := by
  unfold deleteMessageRow
  simp only [List.mem_filter, Bool.not_eq_eq_eq_not, Bool.not_true, beq_eq_false_iff_ne, ne_eq]
  exact ⟨hm, hne⟩

theorem releaseFileRow_spec (db : DB) (fid : String) (f : FileRow)
    (hf : f ∈ (releaseFileRow db fid).files) (heq : f.fileId = fid) :
    f.isExpired = true ∧ f.messageId = none := by
  unfold releaseFileRow at hf
  simp only [List.mem_map] at hf
  obtain ⟨f1, _, hmap⟩ := hf
  by_cases hc : (f1.fileId == fid) = true
  · rw [if_pos hc] at hmap
    rw [← hmap]
    exact ⟨rfl, rfl⟩
  · rw [if_neg hc] at hmap
    rw [← hmap] at heq
    exact absurd (by simpa using heq) (by simpa using hc)

/-! ## C2 -/

/-- Claim C2: `deleteMessage` is atomic over the durable store.  If any
statement between the start of the transaction and the commit rejects
(the failure oracle picks which), the store rolls back to its
pre-transaction snapshot — in particular the message row still exists
exactly as before — and on success the message row is gone, every reply
link to it is cleared and, for a file message, its file row is released;
no intermediate mixture is ever the final state.  A failing physical
unlink is caught by the source and does not abort the transaction, and
the physical directory is outside the transactional store. -/
theorem deleteMessage_atomic (w : World) (fail : DelStep → Bool) (rowId : Nat)
    (u rid : String) :
    ((∃ e, (deleteMessage w fail rowId u rid).1 = .error e) →
      (deleteMessage w fail rowId u rid).2.db = w.db) ∧
    ((deleteMessage w fail rowId u rid).1 = .ok () →
      (∀ m ∈ (deleteMessage w fail rowId u rid).2.db.messages,
        ¬(m.id = rowId) ∧ ¬(m.replyToMessageId = some rowId)) ∧
      (∀ m0, w.db.messages.find? (fun m => m.id == rowId && m.chatroomId == rid) = some m0 →
        (m0.messageType == "file" && strTruthy m0.fileId) = true →
        ∀ f ∈ (deleteMessage w fail rowId u rid).2.db.files,
          f.fileId = m0.fileId.getD "" → f.isExpired = true ∧ f.messageId = none)) := by
  rcases deleteMessage_shape w fail rowId u rid with ⟨hne, hdb⟩ | ⟨hok, m0, hfind, hcase⟩
  · refine ⟨fun _ => hdb, fun hok => absurd hok hne⟩
  · refine ⟨fun ⟨e, he⟩ => absurd (hok.symm.trans he) (fun hh => Except.noConfusion hh), ?_⟩
    intro _
    constructor
    · intro m hm
      rcases hcase with ⟨_, hdb⟩ | ⟨_, hdb⟩
      · rw [hdb] at hm
        have h1 := mem_deleteMessageRow _ _ _ hm
        rw [messages_releaseFileRow] at h1
        exact ⟨h1.2, mem_clearReplyLinks_no_ref _ _ _ h1.1⟩
      · rw [hdb] at hm
        have h1 := mem_deleteMessageRow _ _ _ hm
        exact ⟨h1.2, mem_clearReplyLinks_no_ref _ _ _ h1.1⟩
    · intro m0x hfindx hfilex f hf heq
      have hm0 : m0x = m0 := by
        rw [hfind] at hfindx
        exact (Option.some_injective _ hfindx).symm
      subst hm0
      rcases hcase with ⟨_, hdb⟩ | ⟨hfile0, _⟩
      · rw [hdb] at hf
        exact releaseFileRow_spec _ _ f hf heq
      · rw [hfilex] at hfile0
        exact absurd hfile0 (by simp)

/-- Witness for C2: in the concrete file-message world, making exactly
the file-release UPDATE fail yields an error and leaves the durable
store — message row included — untouched. -/
theorem deleteMessage_atomic_witness :
    (deleteMessage wFile failRelease 1 "creator" "R1").1 = .error (.txFailed .releaseFile) ∧
    (deleteMessage wFile failRelease 1 "creator" "R1").2.db = wFile.db :=
  ⟨by rfl,
   (deleteMessage_atomic wFile failRelease 1 "creator" "R1").1 ⟨.txFailed .releaseFile, by rfl⟩⟩

/-! ## C6 -/

/-- Claim C6: if `M2` replies to `M1` and a delete of `M1` succeeds,
`M2` is still present afterwards with its reply link cleared to null;
deleting `M1` never deletes `M2`. -/
theorem deleteMessage_orphans_replies (w : World) (fail : DelStep → Bool) (rowId : Nat)
    (u rid : String) (m2 : MessageRow) (h2 : m2 ∈ w.db.messages)
    (href : m2.replyToMessageId = some rowId) (hne : ¬(m2.id = rowId))
    (hok : (deleteMessage w fail rowId u rid).1 = .ok ()) :
    ({ m2 with replyToMessageId := none } : MessageRow) ∈
      (deleteMessage w fail rowId u rid).2.db.messages := by
  rcases deleteMessage_shape w fail rowId u rid with ⟨hne2, _⟩ | ⟨_, m0, hfind, hcase⟩
  · exact absurd hok hne2
  · have hmem : ({ m2 with replyToMessageId := none } : MessageRow) ∈
        (clearReplyLinks w.db rowId).messages := by
      unfold clearReplyLinks
      simp only [List.mem_map]
      refine ⟨m2, h2, ?_⟩
      rw [if_pos (by simp [href])]
    rcases hcase with ⟨_, hdb⟩ | ⟨_, hdb⟩
    · rw [hdb]
      apply mem_deleteMessageRow_of
      · rw [messages_releaseFileRow]
        exact hmem
      · exact hne
    · rw [hdb]
      exact mem_deleteMessageRow_of _ _ _ hmem hne

/-- Witness for C6: deleting the concrete `M1` leaves `M2` in the store
with its reply link nulled. -/
theorem deleteMessage_orphans_replies_witness :
    msgM2 ∈ wReply.db.messages ∧
    msgM2.replyToMessageId = some 1 ∧
    (deleteMessage wReply noFail 1 "creator" "R1").1 = .ok () ∧
    ({ msgM2 with replyToMessageId := none } : MessageRow) ∈
      (deleteMessage wReply noFail 1 "creator" "R1").2.db.messages :=
  ⟨by decide, by decide, by rfl,
   deleteMessage_orphans_replies wReply noFail 1 "creator" "R1" msgM2
     (by decide) (by decide) (by decide) (by rfl)⟩

/-! ## C5 -/

/-- Claim C5: bulk deletion aimed at the room creator's uid always fails
and leaves the store untouched, whatever roles the requester holds (a
non-admin requester fails the admin gate, an admin — the creator
included — fails the creator guard). -/
theorem bulk_delete_never_touches_creator (w : World) (now : Nat)
    (targetUid chatroomId deleterUid : String) (c : ChatroomRow)
    (hc : findChatroom w.db chatroomId = some c) (hcr : c.creatorUid = targetUid) :
    (∃ e, (deleteUserMessages w now targetUid chatroomId deleterUid).1 = .error e) ∧
    (deleteUserMessages w now targetUid chatroomId deleterUid).2 = w := by
  unfold deleteUserMessages
  by_cases ha : checkAdminPermission w.db deleterUid chatroomId = true
  · rw [ha, hc]
    rw [if_neg (by decide)]
    dsimp only
    rw [if_pos (by simp [hcr])]
    exact ⟨⟨.creatorNotDeletable, rfl⟩, rfl⟩
  · have ha' : checkAdminPermission w.db deleterUid chatroomId = false := by
      revert ha
      cases checkAdminPermission w.db deleterUid chatroomId <;> simp
    rw [ha']
    rw [if_pos (by decide)]
    exact ⟨⟨.noPermission, rfl⟩, rfl⟩

/-- Witness for C5: the creator (an admin by role) asking to bulk-delete
its own messages in the concrete room is refused and the world is
unchanged. -/
theorem bulk_delete_never_touches_creator_witness :
    findChatroom wReply.db "R1" = some roomA ∧ roomA.creatorUid = "creator" ∧
    ((∃ e, (deleteUserMessages wReply 50 "creator" "R1" "creator").1 = .error e) ∧
      (deleteUserMessages wReply 50 "creator" "R1" "creator").2 = wReply) :=
  ⟨by decide, by decide,
   bulk_delete_never_touches_creator wReply 50 "creator" "R1" "creator" roomA
     (by decide) (by decide)⟩

/-! ## C4 -/

/-- An anonymous principal of room `R1` whose `mute_until` lies in the
future. -/
def anonTarget : AnonUserRow :=
  { uid := "anon", chatroomId := "R1", nickname := "anon-user", avatarUrl := none,
    muteUntil := some 1000000, isActive := true, joinTime := 0, lastActive := 0 }

/-- The active membership row of the anonymous target in `R1`. -/
def memberAnon : MemberRow :=
  { chatroomId := "R1", userUid := "anon", userType := "anonymous", nickname := "anon-user",
    avatarUrl := none, joinTime := 0, lastActive := 0, status := "online", isActive := true }

/-- Store in which the creator can kick the anonymous target. -/
def dbKick : DB :=
  { dbPlain with
    anonymousUsers := [anonTarget]
    chatroomMembers := [memberAnon] }

/-- Success of `kickUser` implies its guards held and pins down the
resulting store. -/
theorem kickUser_ok_shape (db : DB) (now : Nat) (roomId targetUid kickerUid : String)
    (hok : (kickUser db now roomId targetUid kickerUid).1 = .ok ()) :
    (∃ c, findChatroomActive db roomId = some c ∧ c.creatorUid = kickerUid) ∧
    ¬(targetUid = kickerUid) ∧
    (∃ m, db.chatroomMembers.find?
      (fun m => m.chatroomId == roomId && m.userUid == targetUid && m.isActive) = some m) ∧
    (kickUser db now roomId targetUid kickerUid).2 = kickApply db now roomId targetUid := by
  unfold kickUser at hok ⊢
  cases hc : findChatroomActive db roomId with
  | none =>
    rw [hc] at hok
    exact absurd hok (fun hh => Except.noConfusion hh)
  | some c =>
    rw [hc] at hok
    dsimp only at hok ⊢
    by_cases h1 : (c.creatorUid == kickerUid) = true
    · rw [if_neg (by simp [h1])] at hok ⊢
      by_cases h2 : (targetUid == kickerUid) = true
      · rw [if_pos h2] at hok
        exact absurd hok (fun hh => Except.noConfusion hh)
      · rw [if_neg h2] at hok ⊢
        cases hm : db.chatroomMembers.find?
            (fun m => m.chatroomId == roomId && m.userUid == targetUid && m.isActive) with
        | none => rw [hm] at hok; exact absurd hok (fun hh => Except.noConfusion hh)
        | some m =>
          exact ⟨⟨c, rfl, by simpa using h1⟩, by simpa using h2, ⟨m, rfl⟩, rfl⟩
    · rw [if_pos (by simp [h1])] at hok
      exact absurd hok (fun hh => Except.noConfusion hh)

theorem kickApply_member_left (db : DB) (now : Nat) (roomId targetUid : String)
    (m : MemberRow) (hm : m ∈ (kickApply db now roomId targetUid).chatroomMembers)
    (hr : m.chatroomId = roomId) (hu : m.userUid = targetUid) :
    m.status = "left" ∧ m.isActive = false := by
  unfold kickApply at hm
  simp only [List.mem_map] at hm
  obtain ⟨m1, _, hmap⟩ := hm
  by_cases hcond : (m1.chatroomId == roomId && m1.userUid == targetUid) = true
  · rw [if_pos hcond] at hmap
    rw [← hmap]
    exact ⟨rfl, rfl⟩
  · rw [if_neg hcond] at hmap
    subst hmap
    exact absurd (by simp [hr, hu]) hcond

theorem kickApply_mutes_cleared (db : DB) (now : Nat) (roomId targetUid : String)
    (r : MuteRow) (hr : r ∈ (kickApply db now roomId targetUid).userMutes) :
    ¬(r.userUid = targetUid ∧ r.chatroomId = roomId) := by
  unfold kickApply at hr
  simp only [List.mem_filter] at hr
  intro hcon
  have h2 := hr.2
  simp [hcon.1, hcon.2] at h2

theorem kickApply_admin_revoked (db : DB) (now : Nat) (roomId targetUid : String)
    (hcreator : ∀ c, findChatroom db roomId = some c → ¬(c.creatorUid = targetUid)) :
    checkAdminPermission (kickApply db now roomId targetUid) targetUid roomId = false := by
  have hgr : findChatroom (kickApply db now roomId targetUid) roomId = findChatroom db roomId :=
    rfl
  have hfa : (kickApply db now roomId targetUid).chatroomAdmins.find?
      (fun a => a.chatroomId == roomId && a.userUid == targetUid) = none := by
    rw [List.find?_eq_none]
    intro a ha
    unfold kickApply at ha
    simp only [List.mem_filter] at ha
    have h2 := ha.2
    intro hcontra
    rw [hcontra] at h2
    simp at h2
  unfold checkAdminPermission
  rw [hgr]
  cases hc : findChatroom db roomId with
  | none => simp [hfa]
  | some c =>
    dsimp only
    rw [if_neg (by simp [hcreator c hc])]
    simp [hfa]

theorem kickApply_not_muted (db : DB) (now t : Nat) (roomId targetUid : String)
    (hanon : ∀ a ∈ db.anonymousUsers, a.uid = targetUid → a.chatroomId = roomId →
      a.isActive = true → isUserMuted a.muteUntil t = false) :
    (checkUserMuted (kickApply db now roomId targetUid) t targetUid roomId).isMuted = false := by
  have hlm : latestActiveMute (kickApply db now roomId targetUid) roomId targetUid = none := by
    unfold latestActiveMute
    have : (kickApply db now roomId targetUid).userMutes.filter
        (fun r => r.chatroomId == roomId && r.userUid == targetUid && r.isActive) = [] := by
      rw [List.filter_eq_nil_iff]
      intro r hr
      have hcl := kickApply_mutes_cleared db now roomId targetUid r hr
      intro hpred
      simp only [Bool.and_eq_true, beq_iff_eq] at hpred
      exact hcl ⟨hpred.1.2, hpred.1.1⟩
    rw [this]
    rfl
  have hanon2 : (kickApply db now roomId targetUid).anonymousUsers = db.anonymousUsers := rfl
  unfold checkUserMuted
  rw [hlm]
  unfold checkAnonMuted
  rw [hanon2]
  cases hfa : db.anonymousUsers.find?
      (fun a => a.uid == targetUid && a.chatroomId == roomId && a.isActive) with
  | none => rfl
  | some a =>
    have hm := List.mem_of_find?_eq_some hfa
    have hp := List.find?_some hfa
    simp only [Bool.and_eq_true, beq_iff_eq] at hp
    dsimp only
    rw [if_neg (by simp [hanon a hm hp.1.1 hp.1.2 hp.2])]
    rfl

/-- Claim C4, counterexample: the creator kicks the anonymous member
`anon` of `R1`; the kick succeeds, yet a subsequent `checkUserMuted`
still reports the kicked target as muted, because the kick deletes
`user_mutes` rows but never clears `anonymous_users.mute_until`. -/
theorem kicked_anonymous_still_reported_muted :
    (kickUser dbKick 200 "R1" "anon" "creator").1 = .ok () ∧
    (checkUserMuted (kickUser dbKick 200 "R1" "anon" "creator").2 300 "anon" "R1").isMuted
      = true := by
  exact ⟨by rfl, by rfl⟩

/-- Claim C4 (amended): a successful kick implies the kicker is the room
creator, the target is neither the kicker nor a non-member; afterwards
the target's membership rows in the room are `left` and inactive, every
`user_mutes` row of the target in the room is gone, a subsequent
`checkAdminPermission` is false, and a subsequent `checkUserMuted`
reports not muted — except that an anonymous target whose
`anonymous_users.mute_until` still lies in the future remains reported
muted, since the kick does not clear that field. -/
theorem kickUser_spec (db : DB) (now : Nat) (roomId targetUid kickerUid : String)
    (hok : (kickUser db now roomId targetUid kickerUid).1 = .ok ()) :
    (∃ c, findChatroomActive db roomId = some c ∧ c.creatorUid = kickerUid) ∧
    ¬(targetUid = kickerUid) ∧
    (∃ m, db.chatroomMembers.find?
      (fun m => m.chatroomId == roomId && m.userUid == targetUid && m.isActive) = some m) ∧
    (∀ m ∈ (kickUser db now roomId targetUid kickerUid).2.chatroomMembers,
      m.chatroomId = roomId → m.userUid = targetUid →
      m.status = "left" ∧ m.isActive = false) ∧
    (∀ r ∈ (kickUser db now roomId targetUid kickerUid).2.userMutes,
      ¬(r.userUid = targetUid ∧ r.chatroomId = roomId)) ∧
    (findChatroom db roomId = findChatroomActive db roomId →
      checkAdminPermission (kickUser db now roomId targetUid kickerUid).2 targetUid roomId
        = false) ∧
    (∀ t, (∀ a ∈ db.anonymousUsers, a.uid = targetUid → a.chatroomId = roomId →
        a.isActive = true → isUserMuted a.muteUntil t = false) →
      (checkUserMuted (kickUser db now roomId targetUid kickerUid).2 t targetUid roomId).isMuted
        = false) := by
  obtain ⟨⟨c, hc, hcr⟩, hnk, hmem, hdb⟩ := kickUser_ok_shape db now roomId targetUid kickerUid hok
  refine ⟨⟨c, hc, hcr⟩, hnk, hmem, ?_, ?_, ?_, ?_⟩
  · rw [hdb]
    exact fun m hm => kickApply_member_left db now roomId targetUid m hm
  · rw [hdb]
    exact fun r hr => kickApply_mutes_cleared db now roomId targetUid r hr
  · intro huniq
    rw [hdb]
    apply kickApply_admin_revoked
    intro c0 hc0
    rw [huniq, hc] at hc0
    cases hc0
    rw [hcr]
    exact fun hh => hnk hh.symm
  · intro t hanon
    rw [hdb]
    exact kickApply_not_muted db now t roomId targetUid hanon

/-- Witness for the amended C4 theorem: concrete creator-kicks-anonymous
run; the non-anonymous-or-expired side condition is checked at a time
past the anonymous mute deadline. -/
theorem kickUser_spec_witness :
    (kickUser dbKick 200 "R1" "anon" "creator").1 = .ok () ∧
    (∀ r ∈ (kickUser dbKick 200 "R1" "anon" "creator").2.userMutes,
      ¬(r.userUid = "anon" ∧ r.chatroomId = "R1")) ∧
    (checkUserMuted (kickUser dbKick 200 "R1" "anon" "creator").2 2000000 "anon" "R1").isMuted
      = false :=
  ⟨by rfl,
   (kickUser_spec dbKick 200 "R1" "anon" "creator" (by rfl)).2.2.2.2.1,
   (kickUser_spec dbKick 200 "R1" "anon" "creator" (by rfl)).2.2.2.2.2.2 2000000 (by decide)⟩

/-! ## C10 -/

/-- A uid chosen by the generation loop does not yet occur in the
`anonymous_users` table. -/
theorem pickFreshAnonUid_fresh (db : DB) :
    ∀ (cands : List String) (fuel : Nat) (uid : String),
      pickFreshAnonUid db cands fuel = some uid →
      db.anonymousUsers.find? (fun a => a.uid == uid) = none := by
  intro cands
  induction cands with
  | nil => intro fuel uid h; cases fuel <;> cases h
  | cons c rest ih =>
    intro fuel uid h
    cases fuel with
    | zero => cases h
    | succ n =>
      unfold pickFreshAnonUid at h
      by_cases hex : (db.anonymousUsers.find? (fun a => a.uid == c)).isSome = true
      · rw [if_pos hex] at h
        exact ih n uid h
      · rw [if_neg hex] at h
        cases h
        exact Option.not_isSome_iff_eq_none.mp hex

/-- Claim C10: a newly created anonymous principal starts with
`mute_until` equal to the creation time plus the configured anonymous
mute duration (default ten minutes), and — as long as no `user_mutes`
record exists for that fresh uid in the room — `checkUserMuted` reports
it muted exactly until that initial period elapses, although no admin
issued a mute. -/
theorem createAnonymousUser_initially_muted (cfg : AnonConfig) (db : DB) (now : Nat)
    (cands : List String) (roomId : String) (row : AnonUserRow) (db2 : DB)
    (hok : createAnonymousUser cfg db now cands roomId = (.ok row, db2)) :
    row.muteUntil = some (now + cfg.muteDuration) ∧ row.chatroomId = roomId ∧
    (∀ t, (∀ r ∈ db.userMutes,
        ¬((r.chatroomId == roomId && r.userUid == row.uid && r.isActive) = true)) →
      (checkUserMuted db2 t row.uid roomId).isMuted = decide (t < now + cfg.muteDuration)) := by
  unfold createAnonymousUser at hok
  cases hp : pickFreshAnonUid db cands 10 with
  | none => rw [hp] at hok; cases hok
  | some uid =>
    rw [hp] at hok
    dsimp only at hok
    have h1 := congrArg Prod.fst hok
    have h2 := congrArg Prod.snd hok
    simp only [Except.ok.injEq] at h1 h2
    have hfresh := pickFreshAnonUid_fresh db cands 10 uid hp
    rw [h1] at h2
    refine ⟨by rw [← h1], by rw [← h1], ?_⟩
    intro t hmutes
    rw [← h2]
    have hlm : latestActiveMute
        { db with anonymousUsers := db.anonymousUsers ++ [row] } roomId row.uid = none := by
      unfold latestActiveMute
      have hnil : db.userMutes.filter
          (fun r => r.chatroomId == roomId && r.userUid == row.uid && r.isActive) = [] := by
        rw [List.filter_eq_nil_iff]
        intro r hr
        exact hmutes r hr
      show (db.userMutes.filter _).foldl _ none = none
      rw [hnil]
      rfl
    unfold checkUserMuted
    rw [hlm]
    unfold checkAnonMuted
    have hfa : ({ db with anonymousUsers := db.anonymousUsers ++ [row] } : DB).anonymousUsers.find?
        (fun a => a.uid == row.uid && a.chatroomId == roomId && a.isActive) = some row := by
      show (db.anonymousUsers ++ [row]).find? _ = some row
      rw [List.find?_append]
      have huid : row.uid = uid := by rw [← h1]
      have hleft : db.anonymousUsers.find?
          (fun a => a.uid == row.uid && a.chatroomId == roomId && a.isActive) = none := by
        rw [List.find?_eq_none]
        intro a ha
        have hne := (List.find?_eq_none.mp hfresh) a ha
        simp only [beq_iff_eq] at hne
        simp only [Bool.and_eq_true, beq_iff_eq, not_and]
        intro hu
        exact absurd (hu.1.trans huid) hne
      rw [hleft, Option.none_or]
      have hcond : (row.chatroomId == roomId && row.isActive) = true := by
        rw [← h1]
        simp
      simp [List.find?, hcond]
    rw [hfa]
    dsimp only
    have hmu : isUserMuted row.muteUntil t = decide (t < now + cfg.muteDuration) := by
      rw [← h1]
      rfl
    by_cases ht : isUserMuted row.muteUntil t = true
    · rw [if_pos ht]
      rw [← hmu, ht]
    · rw [if_neg ht]
      have hf : isUserMuted row.muteUntil t = false := by
        revert ht
        cases isUserMuted row.muteUntil t <;> simp
      rw [show notMutedStatus.isMuted = false from rfl, ← hmu, hf]

/-- Witness for C10: a fresh anonymous principal in the concrete store
is reported muted just before its initial mute deadline. -/
theorem createAnonymousUser_initially_muted_witness :
    createAnonymousUser {} dbPlain 100 ["ANONUID123456789"] "R1" =
      ((createAnonymousUser {} dbPlain 100 ["ANONUID123456789"] "R1").1,
        (createAnonymousUser {} dbPlain 100 ["ANONUID123456789"] "R1").2) ∧
    ((createAnonymousUser {} dbPlain 100 ["ANONUID123456789"] "R1").2.anonymousUsers.map
        (fun a => a.muteUntil)) = [some (100 + 10 * 60 * 1000)] ∧
    (checkUserMuted (createAnonymousUser {} dbPlain 100 ["ANONUID123456789"] "R1").2 600099
        "ANONUID123456789" "R1").isMuted = true ∧
    (checkUserMuted (createAnonymousUser {} dbPlain 100 ["ANONUID123456789"] "R1").2 600100
        "ANONUID123456789" "R1").isMuted = false := by
  refine ⟨rfl, by rfl, ?_, ?_⟩
  · have h := (createAnonymousUser_initially_muted {} dbPlain 100 ["ANONUID123456789"] "R1"
      ((createAnonymousUser {} dbPlain 100 ["ANONUID123456789"] "R1").2.anonymousUsers.headI)
      (createAnonymousUser {} dbPlain 100 ["ANONUID123456789"] "R1").2 (by rfl)).2.2 600099
      (by decide)
    exact h.trans (by decide)
  · have h := (createAnonymousUser_initially_muted {} dbPlain 100 ["ANONUID123456789"] "R1"
      ((createAnonymousUser {} dbPlain 100 ["ANONUID123456789"] "R1").2.anonymousUsers.headI)
      (createAnonymousUser {} dbPlain 100 ["ANONUID123456789"] "R1").2 (by rfl)).2.2 600100
      (by decide)
    exact h.trans (by decide)

/-! ## C3 -/

/-- Store whose only room is the password-protected `RP`. -/
def dbLocked : DB :=
  { dbPlain with chatrooms := [roomP] }

/-- The authenticated identity of the non-creator `bob`. -/
def bobUser : SocketUser :=
  { uid := "bob", nickname := "bob", avatarUrl := none, userType := "user" }

/-- A connected socket of `bob` that has joined no room yet. -/
def skBob : Socket :=
  { user := bobUser, currentRoom := none }

/-- Server state with the locked room and `bob` connected. -/
def svLocked : Server :=
  { db := dbLocked, onlineUsers := [], userSockets := [("bob", bobUser)] }

/-- Password comparison standing in for the bcrypt check in witnesses:
the stored hash of the fixtures is the password itself. -/
def strEqVerify : String → String → Bool := fun p h => p == h

/-- Claim C3, counterexample: `bob` is not the creator of the
password-protected room `RP` and supplies no password — the socket
`join-room` handler has no password parameter at all — yet the join
succeeds: the handler emits `user-joined` and `room-joined`, records the
socket in the room and upserts an online membership row.  The
password rules hold only on the HTTP `joinChatroom` path, not on every
join path. -/
theorem socket_join_ignores_password :
    roomP.passwordHash = some "hash" ∧ ¬("bob" = roomP.creatorUid) ∧
    (joinRoomHandler svLocked skBob 100 "RP").2.2 =
      [.userJoined "RP" "bob", .roomJoined "RP"] ∧
    (joinRoomHandler svLocked skBob 100 "RP").2.1.currentRoom = some "RP" ∧
    ((joinRoomHandler svLocked skBob 100 "RP").1.db.chatroomMembers.map
      (fun m => (m.userUid, m.status, m.isActive))) = [("bob", "online", true)] ∧
    alookup (joinRoomHandler svLocked skBob 100 "RP").1.onlineUsers "RP" = some ["bob"] := by
  exact ⟨rfl, by decide, by rfl, by rfl, by rfl, by rfl⟩

/-- Claim C3 (amended): on the HTTP `joinChatroom` path the claimed
rules hold — a missing or inactive room fails with the room error, a
non-creator joining a password-protected room fails with
`PasswordRequired` when no password is supplied and `InvalidPassword`
when the supplied password does not verify, a verifying password or the
creator identity joins — and on the socket `join-room` path only the
room existence check is performed (a missing or inactive room yields an
error event), the password never being consulted on that path. -/
theorem joinChatroom_password_rules (verify : String → String → Bool) (db : DB)
    (roomId : String) (password userUid : Option String) :
    (findChatroomActive db roomId = none →
      joinChatroom verify db roomId password userUid = .error .roomNotFoundOrClosed) ∧
    (∀ c h, findChatroomActive db roomId = some c → c.passwordHash = some h →
      ¬(strTruthy userUid = true ∧ c.creatorUid = userUid.getD "") →
      ((strTruthy password = false →
        joinChatroom verify db roomId password userUid = .error .passwordRequired) ∧
       (strTruthy password = true → verify (password.getD "") h = false →
        joinChatroom verify db roomId password userUid = .error .invalidPassword) ∧
       (strTruthy password = true → verify (password.getD "") h = true →
        joinChatroom verify db roomId password userUid =
          .ok { roomId := c.roomId, name := c.name, creatorUid := c.creatorUid,
                isOwner := userUid == some c.creatorUid }))) ∧
    (∀ c, findChatroomActive db roomId = some c → strTruthy userUid = true →
      c.creatorUid = userUid.getD "" →
      joinChatroom verify db roomId password userUid =
        .ok { roomId := c.roomId, name := c.name, creatorUid := c.creatorUid,
              isOwner := userUid == some c.creatorUid }) ∧
    (∀ (sv : Server) (sk : Socket) (now : Nat), findChatroomActive sv.db roomId = none →
      joinRoomHandler sv sk now roomId = (sv, sk, [.errorEvt])) := by
  refine ⟨?_, ?_, ?_, ?_⟩
  · intro h
    unfold joinChatroom
    rw [h]
  · intro c h hc hph hnc
    unfold joinChatroom
    rw [hc]
    dsimp only
    rw [hph]
    dsimp only
    rw [if_neg (by simp only [Bool.and_eq_true, beq_iff_eq]; exact hnc)]
    refine ⟨?_, ?_, ?_⟩
    · intro hp
      rw [if_pos (by rw [hp]; rfl)]
    · intro hp hv
      rw [if_neg (by rw [hp]; decide), if_pos (by rw [hv]; rfl)]
    · intro hp hv
      rw [if_neg (by rw [hp]; decide), if_neg (by rw [hv]; decide)]
  · intro c hc hu hcu
    unfold joinChatroom
    rw [hc]
    dsimp only
    cases hph : c.passwordHash with
    | none => rfl
    | some h =>
      dsimp only
      rw [if_pos (by simp only [Bool.and_eq_true, beq_iff_eq]; exact ⟨hu, hcu⟩)]
  · intro sv sk now h
    unfold joinRoomHandler
    rw [h]

/-- Witness for the amended C3 theorem: every branch exercised on the
concrete locked room. -/
theorem joinChatroom_password_rules_witness :
    joinChatroom strEqVerify dbLocked "RP" none (some "bob") = .error .passwordRequired ∧
    joinChatroom strEqVerify dbLocked "RP" (some "wrong") (some "bob")
      = .error .invalidPassword ∧
    joinChatroom strEqVerify dbLocked "RP" (some "hash") (some "bob") =
      .ok { roomId := roomP.roomId, name := roomP.name, creatorUid := roomP.creatorUid,
            isOwner := (some "bob" : Option String) == some roomP.creatorUid } ∧
    joinChatroom strEqVerify dbLocked "RP" none (some "creator") =
      .ok { roomId := roomP.roomId, name := roomP.name, creatorUid := roomP.creatorUid,
            isOwner := (some "creator" : Option String) == some roomP.creatorUid } ∧
    joinChatroom strEqVerify dbLocked "XX" none none = .error .roomNotFoundOrClosed ∧
    joinRoomHandler svLocked skBob 100 "XX" = (svLocked, skBob, [.errorEvt]) :=
  ⟨((joinChatroom_password_rules strEqVerify dbLocked "RP" none (some "bob")).2.1
      roomP "hash" (by rfl) rfl (by decide)).1 (by decide),
   ((joinChatroom_password_rules strEqVerify dbLocked "RP" (some "wrong") (some "bob")).2.1
      roomP "hash" (by rfl) rfl (by decide)).2.1 (by decide) (by decide),
   ((joinChatroom_password_rules strEqVerify dbLocked "RP" (some "hash") (some "bob")).2.1
      roomP "hash" (by rfl) rfl (by decide)).2.2 (by decide) (by decide),
   (joinChatroom_password_rules strEqVerify dbLocked "RP" none (some "creator")).2.2.1
      roomP (by rfl) (by decide) (by decide),
   (joinChatroom_password_rules strEqVerify dbLocked "XX" none none).1 (by rfl),
   (joinChatroom_password_rules strEqVerify dbLocked "XX" none none).2.2.2
      svLocked skBob 100 (by rfl)⟩

/-! ## C7: presence lemmas -/

theorem alookup_eq_some {α : Type} (l : List (String × α)) (k : String) (v : α)
    (h : alookup l k = some v) : (k, v) ∈ l := by
  unfold alookup at h
  cases hf : l.find? (fun p => p.1 == k) with
  | none => rw [hf] at h; cases h
  | some p =>
    rw [hf] at h
    have hp : p.1 = k := by simpa using List.find?_some hf
    have hm := List.mem_of_find?_eq_some hf
    have hv : p.2 = v := by
      simp only [Option.map] at h
      exact Option.some_injective _ h
    have hpe : (k, v) = p := by
      cases p
      simp_all
    rw [hpe]
    exact hm

theorem alookup_map_replace {α : Type} (l : List (String × α)) (k : String) (v : α)
    (hsome : (l.find? (fun p => p.1 == k)).isSome = true) :
    alookup (l.map (fun p => if p.1 == k then (k, v) else p)) k = some v := by
  induction l with
  | nil => simp at hsome
  | cons p rest ih =>
    by_cases hp : (p.1 == k) = true
    · unfold alookup
      simp only [List.map_cons, if_pos hp]
      rw [List.find?_cons_of_pos _ (by simp)]
      rfl
    · unfold alookup
      simp only [List.map_cons, if_neg hp]
      rw [List.find?_cons_of_neg _ (by simpa using hp)]
      have hsome2 : (rest.find? (fun p => p.1 == k)).isSome = true := by
        rw [List.find?_cons_of_neg _ (by simpa using hp)] at hsome
        exact hsome
      exact ih hsome2

theorem alookup_aset_self {α : Type} (l : List (String × α)) (k : String) (v : α) :
    alookup (aset l k v) k = some v := by
  unfold aset
  by_cases he : (l.find? (fun p => p.1 == k)).isSome = true
  · rw [if_pos he]
    exact alookup_map_replace l k v he
  · rw [if_neg he]
    unfold alookup
    rw [List.find?_append, Option.not_isSome_iff_eq_none.mp he, Option.none_or]
    rw [List.find?_cons_of_pos _ (by simp)]
    rfl

theorem alookup_aremove_self {α : Type} (l : List (String × α)) (k : String) :
    alookup (aremove l k) k = none := by
  unfold alookup aremove
  have hf : (l.filter (fun p => !(p.1 == k))).find? (fun p => p.1 == k) = none := by
    rw [List.find?_eq_none]
    intro x hx
    have := (List.mem_filter.mp hx).2
    simp at this ⊢
    exact this
  rw [hf]
  rfl

theorem chatrooms_addMember (db : DB) (now : Nat) (roomId : String) (u : SocketUser) :
    (addMemberToChatroom db now roomId u).chatrooms = db.chatrooms := by
  unfold addMemberToChatroom
  by_cases hm : ((db.chatroomMembers.find?
      (fun m => m.chatroomId == roomId && m.userUid == u.uid)).isSome) = true
  · rw [if_pos hm]
  · rw [if_neg hm]

theorem onlineEntries_ok_count (sv : Server) (now : Nat) (roomId target : String)
    (c : ChatroomRow) (hc : findChatroomActive sv.db roomId = some c)
    (hws : ∀ p ∈ sv.userSockets, p.2.uid = p.1) :
    ∀ uids : List String, ∃ l, onlineEntries sv now roomId uids = .ok l ∧
      l.countP (fun e => e.uid == target) =
        uids.countP (fun u => u == target && (alookup sv.userSockets u).isSome) := by
  intro uids
  induction uids with
  | nil => exact ⟨[], rfl, rfl⟩
  | cons u rest ih =>
    obtain ⟨l, hl, hcnt⟩ := ih
    cases hsk : alookup sv.userSockets u with
    | none =>
      refine ⟨l, ?_, ?_⟩
      · unfold onlineEntries
        rw [hsk]
        exact hl
      · rw [hcnt, List.countP_cons]
        simp [hsk]
    | some su =>
      have hsu : su.uid = u := hws (u, su) (alookup_eq_some sv.userSockets u su hsk)
      refine ⟨({ uid := su.uid, nickname := su.nickname, avatarUrl := su.avatarUrl,
                 userType := su.userType,
                 isAdmin := checkAdminPermission sv.db u roomId,
                 isCreator := c.creatorUid == u,
                 isMuted := (checkUserMuted sv.db now u roomId).isMuted,
                 muteUntil := (checkUserMuted sv.db now u roomId).muteUntil } :
                 OnlineEntry) :: l, ?_, ?_⟩
      · unfold onlineEntries
        rw [hsk, hc, hl]
      · rw [List.countP_cons, List.countP_cons, hcnt, hsk]
        dsimp only
        rw [hsu]
        simp

theorem countP_setAdd_one (l : List String) (t : String) (C : String → Bool)
    (hl : l.Nodup) (hCt : C t = true) :
    (setAdd l t).countP (fun u => u == t && C u) = 1 := by
  have hsub : ∀ m : List String, m.countP (fun u => u == t && C u) = m.count t := by
    intro m
    rw [List.count_eq_countP]
    apply List.countP_congr
    intro u _
    constructor
    · intro h
      have h2 := h
      simp only [Bool.and_eq_true] at h2
      exact h2.1
    · intro h
      have : u = t := by simpa using h
      subst this
      simp [hCt]
  rw [hsub]
  unfold setAdd
  by_cases hmem : l.contains t
  · rw [if_pos hmem]
    exact List.count_eq_one_of_mem hl (by simpa using hmem)
  · rw [if_neg hmem]
    rw [List.count_append]
    rw [List.count_eq_zero_of_not_mem (by simpa using hmem)]
    simp

theorem countP_setDelete_zero (l : List String) (t : String) (C : String → Bool) :
    (setDelete l t).countP (fun u => u == t && C u) = 0 := by
  rw [List.countP_eq_zero]
  intro u hu
  have := (List.mem_filter.mp hu).2
  simp only [Bool.not_eq_eq_eq_not, Bool.not_true, beq_eq_false_iff_ne, ne_eq] at this
  simp [this]

theorem setAdd_nodup (l : List String) (x : String) (hl : l.Nodup) : (setAdd l x).Nodup := by
  unfold setAdd
  by_cases hmem : l.contains x
  · rw [if_pos hmem]
    exact hl
  · rw [if_neg hmem]
    rw [List.nodup_append]
    refine ⟨hl, List.nodup_singleton x, ?_⟩
    intro a ha hb
    rw [List.mem_singleton] at hb
    subst hb
    exact absurd (by simpa using ha) (by simpa using hmem)

theorem getOnlineUserList_count (sv : Server) (now : Nat) (roomId target : String)
    (c : ChatroomRow) (hc : findChatroomActive sv.db roomId = some c)
    (hws : ∀ p ∈ sv.userSockets, p.2.uid = p.1) (uids : List String)
    (halk : alookup sv.onlineUsers roomId = some uids) :
    ∃ l, getOnlineUserList sv now roomId = .ok l ∧
      l.countP (fun e => e.uid == target) =
        uids.countP (fun u => u == target && (alookup sv.userSockets u).isSome) := by
  unfold getOnlineUserList
  rw [halk]
  exact onlineEntries_ok_count sv now roomId target c hc hws uids

/-- Claim C7: starting from a wellformed presence registry (per-room uid
sets without duplicates, the socket map keyed by the stored uid) and an
active room, a join puts the principal exactly once into the enriched
online list — joining when already present never yields a duplicate — a
leave on the joined socket removes it (zero occurrences afterwards) and
emits exactly one `user-left` event, and a second leave on the same
socket is a complete no-op: same state, same socket, no events. -/
theorem presence_join_once_leave_idempotent (sv : Server) (sk : Socket) (now : Nat)
    (roomId : String) (c : ChatroomRow)
    (hroom : findChatroomActive sv.db roomId = some c)
    (hsock : (alookup sv.userSockets sk.user.uid).isSome = true)
    (hws : ∀ p ∈ sv.userSockets, p.2.uid = p.1)
    (hnd : ∀ p ∈ sv.onlineUsers, p.2.Nodup) :
    (∃ l1, getOnlineUserList (joinRoomHandler sv sk now roomId).1 now roomId = .ok l1 ∧
      l1.countP (fun e => e.uid == sk.user.uid) = 1) ∧
    (∃ l2, getOnlineUserList
        (handleUserLeaveRoom (joinRoomHandler sv sk now roomId).1
          (joinRoomHandler sv sk now roomId).2.1 now).1 now roomId = .ok l2 ∧
      l2.countP (fun e => e.uid == sk.user.uid) = 0) ∧
    (handleUserLeaveRoom (joinRoomHandler sv sk now roomId).1
        (joinRoomHandler sv sk now roomId).2.1 now).2.2 =
      [.userLeft roomId sk.user.uid] ∧
    handleUserLeaveRoom
        (handleUserLeaveRoom (joinRoomHandler sv sk now roomId).1
          (joinRoomHandler sv sk now roomId).2.1 now).1
        (handleUserLeaveRoom (joinRoomHandler sv sk now roomId).1
          (joinRoomHandler sv sk now roomId).2.1 now).2.1 now =
      ((handleUserLeaveRoom (joinRoomHandler sv sk now roomId).1
          (joinRoomHandler sv sk now roomId).2.1 now).1,
        (handleUserLeaveRoom (joinRoomHandler sv sk now roomId).1
          (joinRoomHandler sv sk now roomId).2.1 now).2.1, []) := by
  have hjoin : joinRoomHandler sv sk now roomId =
      ({ db := addMemberToChatroom sv.db now roomId sk.user
         onlineUsers := aset sv.onlineUsers roomId
           (setAdd ((alookup sv.onlineUsers roomId).getD []) sk.user.uid)
         userSockets := sv.userSockets },
       { sk with currentRoom := some roomId },
       [.userJoined roomId sk.user.uid, .roomJoined roomId]) := by
    unfold joinRoomHandler
    rw [hroom]
  rw [hjoin]
  dsimp only
  have hnodup0 : ((alookup sv.onlineUsers roomId).getD []).Nodup := by
    cases halk0 : alookup sv.onlineUsers roomId with
    | none => exact List.nodup_nil
    | some us => exact hnd (roomId, us) (alookup_eq_some _ _ _ halk0)
  have hc1 : findChatroomActive
      ({ db := addMemberToChatroom sv.db now roomId sk.user
         onlineUsers := aset sv.onlineUsers roomId
           (setAdd ((alookup sv.onlineUsers roomId).getD []) sk.user.uid)
         userSockets := sv.userSockets } : Server).db roomId = some c := by
    unfold findChatroomActive
    rw [show (addMemberToChatroom sv.db now roomId sk.user).chatrooms = sv.db.chatrooms from
      chatrooms_addMember sv.db now roomId sk.user]
    exact hroom
  have halk1 : alookup
      ({ db := addMemberToChatroom sv.db now roomId sk.user
         onlineUsers := aset sv.onlineUsers roomId
           (setAdd ((alookup sv.onlineUsers roomId).getD []) sk.user.uid)
         userSockets := sv.userSockets } : Server).onlineUsers roomId =
      some (setAdd ((alookup sv.onlineUsers roomId).getD []) sk.user.uid) :=
    alookup_aset_self sv.onlineUsers roomId _
  obtain ⟨l1, hl1, hcnt1⟩ := getOnlineUserList_count _ now roomId sk.user.uid c hc1 hws _ halk1
  refine ⟨⟨l1, hl1, ?_⟩, ?_⟩
  · rw [hcnt1]
    exact countP_setAdd_one _ _ _ hnodup0 hsock
  by_cases hempty :
      (setDelete (setAdd ((alookup sv.onlineUsers roomId).getD []) sk.user.uid)
        sk.user.uid).isEmpty = true
  · have hol2 : getOnlineUserList
        ({ db := setMemberOffline (addMemberToChatroom sv.db now roomId sk.user) now roomId
             sk.user.uid
           onlineUsers := aremove (aset sv.onlineUsers roomId
             (setAdd ((alookup sv.onlineUsers roomId).getD []) sk.user.uid)) roomId
           userSockets := sv.userSockets } : Server) now roomId = .ok [] := by
      unfold getOnlineUserList
      rw [alookup_aremove_self]
    have hlv : handleUserLeaveRoom
        ({ db := addMemberToChatroom sv.db now roomId sk.user
           onlineUsers := aset sv.onlineUsers roomId
             (setAdd ((alookup sv.onlineUsers roomId).getD []) sk.user.uid)
           userSockets := sv.userSockets } : Server)
        ({ sk with currentRoom := some roomId }) now =
        ({ db := setMemberOffline (addMemberToChatroom sv.db now roomId sk.user) now roomId
             sk.user.uid
           onlineUsers := aremove (aset sv.onlineUsers roomId
             (setAdd ((alookup sv.onlineUsers roomId).getD []) sk.user.uid)) roomId
           userSockets := sv.userSockets },
         { sk with currentRoom := none },
         [.userLeft roomId sk.user.uid]) := by
      unfold handleUserLeaveRoom
      dsimp only
      rw [halk1]
      dsimp only
      rw [if_pos hempty, hol2]
    rw [hlv]
    exact ⟨⟨[], hol2, rfl⟩, rfl, by unfold handleUserLeaveRoom; rfl⟩
  · have hc2 : findChatroomActive
        ({ db := setMemberOffline (addMemberToChatroom sv.db now roomId sk.user) now roomId
             sk.user.uid
           onlineUsers := aset (aset sv.onlineUsers roomId
               (setAdd ((alookup sv.onlineUsers roomId).getD []) sk.user.uid)) roomId
             (setDelete (setAdd ((alookup sv.onlineUsers roomId).getD []) sk.user.uid)
               sk.user.uid)
           userSockets := sv.userSockets } : Server).db roomId = some c := by
      unfold findChatroomActive
      show (addMemberToChatroom sv.db now roomId sk.user).chatrooms.find? _ = some c
      rw [chatrooms_addMember sv.db now roomId sk.user]
      exact hroom
    have halk2 : alookup
        ({ db := setMemberOffline (addMemberToChatroom sv.db now roomId sk.user) now roomId
             sk.user.uid
           onlineUsers := aset (aset sv.onlineUsers roomId
               (setAdd ((alookup sv.onlineUsers roomId).getD []) sk.user.uid)) roomId
             (setDelete (setAdd ((alookup sv.onlineUsers roomId).getD []) sk.user.uid)
               sk.user.uid)
           userSockets := sv.userSockets } : Server).onlineUsers roomId =
        some (setDelete (setAdd ((alookup sv.onlineUsers roomId).getD []) sk.user.uid)
          sk.user.uid) :=
      alookup_aset_self _ roomId _
    obtain ⟨l2, hol2, hcnt2⟩ :=
      getOnlineUserList_count _ now roomId sk.user.uid c hc2 hws _ halk2
    have hzero : l2.countP (fun e => e.uid == sk.user.uid) = 0 := by
      rw [hcnt2]
      exact countP_setDelete_zero _ _ _
    have hlv : handleUserLeaveRoom
        ({ db := addMemberToChatroom sv.db now roomId sk.user
           onlineUsers := aset sv.onlineUsers roomId
             (setAdd ((alookup sv.onlineUsers roomId).getD []) sk.user.uid)
           userSockets := sv.userSockets } : Server)
        ({ sk with currentRoom := some roomId }) now =
        ({ db := setMemberOffline (addMemberToChatroom sv.db now roomId sk.user) now roomId
             sk.user.uid
           onlineUsers := aset (aset sv.onlineUsers roomId
               (setAdd ((alookup sv.onlineUsers roomId).getD []) sk.user.uid)) roomId
             (setDelete (setAdd ((alookup sv.onlineUsers roomId).getD []) sk.user.uid)
               sk.user.uid)
           userSockets := sv.userSockets },
         { sk with currentRoom := none },
         [.userLeft roomId sk.user.uid]) := by
      unfold handleUserLeaveRoom
      dsimp only
      rw [halk1]
      dsimp only
      rw [if_neg hempty, hol2]
    rw [hlv]
    exact ⟨⟨l2, hol2, hzero⟩, rfl, by unfold handleUserLeaveRoom; rfl⟩

/-- The authenticated identity of `alice` for the presence witness. -/
def aliceUser : SocketUser :=
  { uid := "alice", nickname := "alice", avatarUrl := none, userType := "user" }

/-- A connected socket of `alice` that has joined no room yet. -/
def skAlice : Socket :=
  { user := aliceUser, currentRoom := none }

/-- Server state with the open room `R1` and `alice` connected. -/
def svPlain : Server :=
  { db := dbPlain, onlineUsers := [], userSockets := [("alice", aliceUser)] }

/-- Witness for C7 at the concrete state: `alice` joins `R1`, leaves and
leaves again. -/
theorem presence_join_once_leave_idempotent_witness :
    (∃ l1, getOnlineUserList (joinRoomHandler svPlain skAlice 100 "R1").1 100 "R1" = .ok l1 ∧
      l1.countP (fun e => e.uid == "alice") = 1) ∧
    (∃ l2, getOnlineUserList
        (handleUserLeaveRoom (joinRoomHandler svPlain skAlice 100 "R1").1
          (joinRoomHandler svPlain skAlice 100 "R1").2.1 100).1 100 "R1" = .ok l2 ∧
      l2.countP (fun e => e.uid == "alice") = 0) ∧
    (handleUserLeaveRoom (joinRoomHandler svPlain skAlice 100 "R1").1
        (joinRoomHandler svPlain skAlice 100 "R1").2.1 100).2.2 =
      [.userLeft "R1" "alice"] ∧
    handleUserLeaveRoom
        (handleUserLeaveRoom (joinRoomHandler svPlain skAlice 100 "R1").1
          (joinRoomHandler svPlain skAlice 100 "R1").2.1 100).1
        (handleUserLeaveRoom (joinRoomHandler svPlain skAlice 100 "R1").1
          (joinRoomHandler svPlain skAlice 100 "R1").2.1 100).2.1 100 =
      ((handleUserLeaveRoom (joinRoomHandler svPlain skAlice 100 "R1").1
          (joinRoomHandler svPlain skAlice 100 "R1").2.1 100).1,
        (handleUserLeaveRoom (joinRoomHandler svPlain skAlice 100 "R1").1
          (joinRoomHandler svPlain skAlice 100 "R1").2.1 100).2.1, []) :=
  presence_join_once_leave_idempotent svPlain skAlice 100 "R1" roomA
    (by rfl) (by decide) (by decide) (by decide)

end ChatFlow
